import Mathlib

/-!
Verification development for the nhl-faninsights backend
(`backend/app`): a shallow embedding in Lean 4 of the post-game
processing pipeline (`jobs/game_processor.py`), the hourly video sweep
(`scheduler.py`), the roster synchronization job (`jobs/roster_sync.py`),
the comment CRUD layer (`crud/comment.py`), and the Redis cache wrapper
(`services/redis_cache.py`), together with theorems settling the spec's
claims about them.

Conventions of the embedding:
* machine timestamps (`datetime`) are modelled as `Int` minutes;
  `date` values as `Int` days;
* database rows are Lean structures mirroring the ORM column lists;
  a session's table is a `List` of rows, `query(...).first()` is
  `List.find?`, and mutation of the object returned by `first()` is
  `updateFirst...` (the first matching row is replaced);
* external HTTP calls are injected as `Except` parameters: `.ok r`
  means the upstream call returned payload `r`, `.error _` means it
  raised; a pipeline stage that lets an exception escape returns
  `Except` whose error value carries the session state accumulated
  before the raise (SQLAlchemy keeps uncommitted mutations in the
  session, and the caller decides whether they are later committed);
* Python's `json.dumps`/`json.loads` pair is embedded as an executable
  printer `jsonDumps` and parser `jsonLoads` over a JSON value type.
-/

/-! ## JSON values and the `json.dumps` / `json.loads` pair
(used by `services/redis_cache.py`, which stores `json.dumps(value)`
and returns `json.loads(stored)`), -/

inductive JVal where
  | jnull : JVal
  | jbool : Bool → JVal
  | jnum : Int → JVal
  | jstr : String → JVal
  | jarr : List JVal → JVal
  | jobj : List (String × JVal) → JVal

/-- Escaping of one character inside a JSON string literal, as
`json.dumps` emits it for the characters this model covers. -/
def jsonEscapeChar (c : Char) : String :=
  if c = '"' then "\\\""
  else if c = '\\' then "\\\\"
  else if c = '\n' then "\\n"
  else if c = '\t' then "\\t"
  else if c = '\r' then "\\r"
  else String.singleton c

def jsonEscape (s : String) : String :=
  "\"" ++ String.join (s.toList.map jsonEscapeChar) ++ "\""

mutual

/-- `json.dumps` with the default separators `", "` and `": "`. -/
def jsonDumps : JVal → String
  | .jnull => "null"
  | .jbool true => "true"
  | .jbool false => "false"
  | .jnum n => toString n
  | .jstr s => jsonEscape s
  | .jarr xs => "[" ++ jsonDumpsArr xs ++ "]"
  | .jobj fs => "\x7b" ++ jsonDumpsObj fs ++ "\x7d"

def jsonDumpsArr : List JVal → String
  | [] => ""
  | [x] => jsonDumps x
  | x :: xs => jsonDumps x ++ ", " ++ jsonDumpsArr xs

def jsonDumpsObj : List (String × JVal) → String
  | [] => ""
  | [(k, v)] => jsonEscape k ++ ": " ++ jsonDumps v
  | (k, v) :: fs => jsonEscape k ++ ": " ++ jsonDumps v ++ ", " ++ jsonDumpsObj fs

end

/-! A recursive-descent JSON parser (the `json.loads` side), written
with explicit fuel so that every definition is a total function. -/

def jsonIsWs (c : Char) : Bool :=
  c = ' ' ∨ c = '\n' ∨ c = '\t' ∨ c = '\r'

def jsonSkipWs : List Char → List Char
  | [] => []
  | c :: cs => if jsonIsWs c then jsonSkipWs cs else c :: cs

def jsonUnescapeChar (c : Char) : Option Char :=
  if c = '"' then some '"'
  else if c = '\\' then some '\\'
  else if c = 'n' then some '\n'
  else if c = 't' then some '\t'
  else if c = 'r' then some '\r'
  else none

/-- Parse the body of a string literal after the opening quote,
returning the decoded characters and the remaining input. -/
def jsonParseStr (fuel : Nat) (cs : List Char) : Option (List Char × List Char) :=
  match fuel, cs with
  | 0, _ => none
  | _, [] => none
  | fuel + 1, c :: cs =>
    if c = '"' then some ([], cs)
    else if c = '\\' then
      match cs with
      | [] => none
      | e :: cs => do
        let d ← jsonUnescapeChar e
        let (s, r) ← jsonParseStr fuel cs
        some (d :: s, r)
    else do
      let (s, r) ← jsonParseStr fuel cs
      some (c :: s, r)

def jsonParseDigits (fuel : Nat) (acc : Nat) (cs : List Char) : Nat × List Char :=
  match fuel, cs with
  | 0, cs => (acc, cs)
  | _, [] => (acc, [])
  | fuel + 1, c :: cs =>
    if c.isDigit then jsonParseDigits fuel (acc * 10 + (c.toNat - '0'.toNat)) (c :: cs).tail
    else (acc, c :: cs)

/-- Parse an (integer) JSON number. -/
def jsonParseNum (fuel : Nat) (cs : List Char) : Option (Int × List Char) :=
  match cs with
  | [] => none
  | c :: rest =>
    if c = '-' then
      match rest with
      | [] => none
      | d :: _ =>
        if d.isDigit then
          let (n, r) := jsonParseDigits fuel 0 rest
          some (-(n : Int), r)
        else none
    else if c.isDigit then
      let (n, r) := jsonParseDigits fuel 0 cs
      some ((n : Int), r)
    else none

mutual

def jsonParseVal (fuel : Nat) (cs : List Char) : Option (JVal × List Char) :=
  match fuel with
  | 0 => none
  | fuel + 1 =>
    match jsonSkipWs cs with
    | 'n' :: 'u' :: 'l' :: 'l' :: rest => some (.jnull, rest)
    | 't' :: 'r' :: 'u' :: 'e' :: rest => some (.jbool true, rest)
    | 'f' :: 'a' :: 'l' :: 's' :: 'e' :: rest => some (.jbool false, rest)
    | '"' :: rest => do
      let (s, r) ← jsonParseStr fuel rest
      some (.jstr (String.mk s), r)
    | '[' :: rest =>
      (match jsonSkipWs rest with
       | ']' :: r => some (.jarr [], r)
       | _ => do
         let (xs, r) ← jsonParseArr fuel rest
         some (.jarr xs, r))
    | '\x7b' :: rest =>
      (match jsonSkipWs rest with
       | '\x7d' :: r => some (.jobj [], r)
       | _ => do
         let (fs, r) ← jsonParseObj fuel rest
         some (.jobj fs, r))
    | cs => do
      let (n, r) ← jsonParseNum fuel cs
      some (.jnum n, r)

def jsonParseArr (fuel : Nat) (cs : List Char) : Option (List JVal × List Char) :=
  match fuel with
  | 0 => none
  | fuel + 1 => do
    let (x, r) ← jsonParseVal fuel cs
    match jsonSkipWs r with
    | ',' :: r2 => do
      let (xs, r3) ← jsonParseArr fuel r2
      some (x :: xs, r3)
    | ']' :: r2 => some ([x], r2)
    | _ => none

def jsonParseObj (fuel : Nat) (cs : List Char) : Option (List (String × JVal) × List Char) :=
  match fuel with
  | 0 => none
  | fuel + 1 =>
    match jsonSkipWs cs with
    | '"' :: rest => do
      let (k, r) ← jsonParseStr fuel rest
      match jsonSkipWs r with
      | ':' :: r2 => do
        let (v, r3) ← jsonParseVal fuel r2
        match jsonSkipWs r3 with
        | ',' :: r4 => do
          let (fs, r5) ← jsonParseObj fuel r4
          some ((String.mk k, v) :: fs, r5)
        | '\x7d' :: r4 => some ([(String.mk k, v)], r4)
        | _ => none
      | _ => none
    | _ => none

end

/-- `json.loads`: parse the whole input; trailing garbage is an error. -/
def jsonLoads (s : String) : Option JVal :=
  match jsonParseVal (s.length + 1) s.toList with
  | some (v, r) => if jsonSkipWs r = [] then some v else none
  | none => none

/-- "JSON-serializable value": a value that survives the module's
serialize/deserialize round trip (and whose serialized form is a
non-empty string, as every `json.dumps` output is). -/
def jsonSerializable (v : JVal) : Prop :=
  jsonLoads (jsonDumps v) = some v ∧ jsonDumps v ≠ ""

/-! ## Redis cache wrapper (`services/redis_cache.py`)

The Redis client is modelled by its documented key/value contract:
a list of `(key, serialized value, expiry time)` entries. `RedisCache`
methods guard on `enabled` and translate through `json`. The claims
are about the enabled-and-healthy case, so no client failure is
injected here (an unhealthy backend is `enabled = false`, which the
constructor sets on a failed connection test). -/

structure RedisState where
  store : List (String × String × Int) := []
deriving Repr, DecidableEq

/-- `SETEX key ttl value`: store with expiry `now + ttl` (any previous
entry for the key is superseded). -/
def redisSetex (st : RedisState) (now : Int) (key : String) (ttl : Int)
    (value : String) : RedisState :=
  { store := (key, value, now + ttl) :: st.store.filter (fun e => !(e.1 == key)) }

/-- `GET key`: the stored value, unless absent or expired. -/
def redisGetRaw (st : RedisState) (now : Int) (key : String) : Option String :=
  match st.store.find? (fun e => e.1 == key) with
  | some (_, v, exp) => if now < exp then some v else none
  | none => none

/-- `DEL key`: remove the key; report whether a live entry was removed. -/
def redisDel (st : RedisState) (now : Int) (key : String) : RedisState × Bool :=
  ({ store := st.store.filter (fun e => !(e.1 == key)) },
   (redisGetRaw st now key).isSome)

/-- `RedisCache.get`: `None` when disabled; otherwise fetch, treat a
falsy (empty) reply as a miss, and `json.loads` the hit (a decode
error is caught and reported as `None`). -/
def cacheGet (enabled : Bool) (st : RedisState) (now : Int) (key : String) :
    Option JVal :=
  if !enabled then none
  else
    match redisGetRaw st now key with
    | some v => if v = "" then none else jsonLoads v
    | none => none

/-- `RedisCache.set`: `False` when disabled; otherwise `SETEX` the
`json.dumps` serialization and return `True`. -/
def cacheSet (enabled : Bool) (st : RedisState) (now : Int) (key : String)
    (value : JVal) (ttl : Int) : Bool × RedisState :=
  if !enabled then (false, st)
  else (true, redisSetex st now key ttl (jsonDumps value))

/-- `RedisCache.invalidate`: `False` when disabled; otherwise delete the
key and report whether something was deleted. -/
def cacheInvalidate (enabled : Bool) (st : RedisState) (now : Int)
    (key : String) : Bool × RedisState :=
  if !enabled then (false, st)
  else
    let (st', deleted) := redisDel st now key
    (deleted, st')

/-! ## Game pipeline data model

`models/game.py` row (the columns the pipeline reads or writes) and
`models/video.py` row, plus the session-level helpers shared by
`jobs/game_processor.py`, `crud/game.py`, `crud/video.py` and
`scheduler.py`. -/

/-- One `games` row. Timestamps are `Option Int` (nullable columns). -/
structure GameRow where
  game_id : Int
  game_date_utc : Int
  status : String
  away_team : String
  home_team : String
  away_score : Option Int := none
  home_score : Option Int := none
  scorers : List String := []
  summary_line : Option String := none
  recap_text : Option String := none
  next_game_storyline : Option String := none
  basic_stats_fetched : Bool := false
  videos_fetched : Bool := false
  reddit_fetched : Bool := false
  quotes_fetched : Bool := false
  recap_generated : Bool := false
  status_updated_at : Option Int := none
  completed_at : Option Int := none
  archived_at : Option Int := none
deriving Repr, DecidableEq

/-- One `videos` row (`models/video.py`); the table carries the
uniqueness constraint `uq_game_video` on `(game_id, youtube_id)`. -/
structure VideoRow where
  game_id : Int
  youtube_id : String
  title : String
  channel_name : Option String := none
  thumbnail_url : Option String := none
  video_type : String
  published_at : Option Int := none
deriving Repr, DecidableEq

/-- The session's view of the two tables the pipeline touches. -/
structure GameDB where
  games : List GameRow := []
  videos : List VideoRow := []
deriving Repr, DecidableEq

/-- `db.query(Game).filter(Game.game_id == game_id).first()`. -/
def findGame (db : GameDB) (gid : Int) : Option GameRow :=
  db.games.find? (fun g => g.game_id == gid)

/-- Mutating the ORM object returned by `.first()`: exactly the first
row matching the id is replaced. -/
def updateFirstGame : List GameRow → Int → (GameRow → GameRow) → List GameRow
  | [], _, _ => []
  | g :: gs, gid, f =>
    if g.game_id == gid then f g :: gs else g :: updateFirstGame gs gid f

def updateGame (db : GameDB) (gid : Int) (f : GameRow → GameRow) : GameDB :=
  { db with games := updateFirstGame db.games gid f }

/-- `crud/video.py` `video_exists` and the inline
`db.query(Video).filter_by(game_id=..., youtube_id=...).first()` check
of the T+4h stage (pending inserts are visible to the query). -/
def videoExists (vs : List VideoRow) (gid : Int) (yid : String) : Bool :=
  vs.any (fun v => v.game_id == gid && v.youtube_id == yid)

/-- The lifecycle order of §4.1:
`SCHEDULED → LIVE → FINAL/OFF → COMPLETE → ARCHIVED`. -/
def statusRank (s : String) : Nat :=
  if s = "SCHEDULED" then 0
  else if s = "LIVE" then 1
  else if s = "FINAL" then 2
  else if s = "OFF" then 2
  else if s = "COMPLETE" then 3
  else if s = "ARCHIVED" then 4
  else 0

/-! ## Boxscore payloads and goal-scorer extraction
(`services/nhl.py` and the T+0 stage of `jobs/game_processor.py`).
Every access in the source reads nested keys with `.get(..., default)`,
so absent keys coincide with default-valued fields. -/

/-- One per-player stat line: `player.get("goals", 0)` and
`player.get("name", {}).get("default")`. -/
structure PlayerStat where
  goals : Int := 0
  name : Option String := none
deriving Repr, DecidableEq

structure SideStats where
  forwards : List PlayerStat := []
  defense : List PlayerStat := []
  goalies : List PlayerStat := []
deriving Repr, DecidableEq

structure PlayerByGameStats where
  awayTeam : SideStats := {}
  homeTeam : SideStats := {}
deriving Repr, DecidableEq

structure TeamSide where
  abbrev_ : String
  commonName : String
  score : Int
deriving Repr, DecidableEq

structure Boxscore where
  awayTeam : TeamSide
  homeTeam : TeamSide
  playerByGameStats : PlayerByGameStats := {}
deriving Repr, DecidableEq

/-- Names of the players of one position group with `goals > 0` (and a
present name), in list order. -/
def scorersOfGroup (ps : List PlayerStat) : List String :=
  ps.filterMap (fun p => if p.goals > 0 then p.name else none)

/-- The T+0 extraction (`process_game_immediate`, lines 99-108):
sides `awayTeam`, `homeTeam`; roles `forwards`, `defense`. -/
def extractScorersT0 (b : Boxscore) : List String :=
  let stats := b.playerByGameStats
  scorersOfGroup stats.awayTeam.forwards ++ scorersOfGroup stats.awayTeam.defense
    ++ scorersOfGroup stats.homeTeam.forwards ++ scorersOfGroup stats.homeTeam.defense

/-- The reference extraction (`transform_boxscore`, `services/nhl.py`
lines 88-96): roles `forwards`, `defense`, `goalies`. -/
def transformBoxscoreScorers (b : Boxscore) : List String :=
  let stats := b.playerByGameStats
  scorersOfGroup stats.awayTeam.forwards ++ scorersOfGroup stats.awayTeam.defense
    ++ scorersOfGroup stats.awayTeam.goalies
    ++ scorersOfGroup stats.homeTeam.forwards ++ scorersOfGroup stats.homeTeam.defense
    ++ scorersOfGroup stats.homeTeam.goalies

/-! ## Pipeline stages (`jobs/game_processor.py`)

A stage returning `Except GameDB GameDB` either completes (`.ok`) or
raises with the session mutations made before the raise (`.error`). -/

/-- The session state an exception leaves behind (kept by the session;
the caller decides whether a later commit persists it). -/
def runResultDB : Except GameDB GameDB → GameDB
  | .ok db => db
  | .error db => db

/-- `process_game_immediate` (T+0). `box` is the injected
`services.fetch_boxscore` outcome. -/
def processGameImmediate (box : Except Unit Boxscore) (now : Int)
    (db : GameDB) (game_id : Int) : Except GameDB GameDB :=
  match findGame db game_id with
  | none => .ok db
  | some _ =>
    match box with
    | .error _ => .error db
    | .ok b =>
      .ok (updateGame db game_id (fun g =>
        { g with
          away_team := b.awayTeam.abbrev_
          home_team := b.homeTeam.abbrev_
          away_score := some b.awayTeam.score
          home_score := some b.homeTeam.score
          scorers := extractScorersT0 b
          basic_stats_fetched := true
          status := "FINAL"
          status_updated_at := some now }))

/-- One categorized result of `search_game_highlights`. -/
structure VideoData where
  video_id : String
  title : String
  channel_name : Option String := none
  thumbnail_url : Option String := none
  published_at : Option Int := none
deriving Repr, DecidableEq

structure VideoResults where
  nhl_official : Option VideoData := none
  professor_hockey : Option VideoData := none
deriving Repr, DecidableEq

/-- The save step of the T+4h stage for one category: check
`(game_id, youtube_id)` existence, insert only when absent. -/
def saveVideoIfNew (vs : List VideoRow) (gid : Int) (vtype : String)
    (defaultChannel : String) : Option VideoData → List VideoRow
  | none => vs
  | some d =>
    if videoExists vs gid d.video_id then vs
    else
      vs ++ [{ game_id := gid
               youtube_id := d.video_id
               title := d.title
               channel_name := some (d.channel_name.getD defaultChannel)
               thumbnail_url := d.thumbnail_url
               video_type := vtype
               published_at := d.published_at }]

/-- `generate_game_recap` result (three fields; the service falls back
to a template on its own, so a raise here is a hard failure). -/
structure RecapResult where
  summary_line : String
  recap_text : String
  next_game_storyline : Option String := none
deriving Repr, DecidableEq

/-- `process_game_videos_and_recap` (T+4h). `search` and `recap` are
the injected `search_game_highlights` / `generate_game_recap`
outcomes (their request parameters - teams, date, and the
sharks-game-number count - only select which upstream response comes
back, so they live inside the injected value). -/
def processGameVideosAndRecap (search : Except Unit VideoResults)
    (recap : Except Unit RecapResult) (now : Int)
    (db : GameDB) (game_id : Int) : Except GameDB GameDB :=
  match findGame db game_id with
  | none => .ok db
  | some _ =>
    match search with
    | .error _ => .error db
    | .ok vr =>
      let vs1 := saveVideoIfNew db.videos game_id "nhl_official" "NHL" vr.nhl_official
      let vs2 := saveVideoIfNew vs1 game_id "professor_hockey" "Professor Hockey"
        vr.professor_hockey
      let db1 := updateGame { db with videos := vs2 } game_id
        (fun g => { g with videos_fetched := true })
      match recap with
      | .error _ => .error db1
      | .ok rr =>
        .ok (updateGame db1 game_id (fun g =>
          { g with
            summary_line := some rr.summary_line
            recap_text := some rr.recap_text
            next_game_storyline := rr.next_game_storyline
            recap_generated := true
            status := "COMPLETE"
            completed_at := some now
            status_updated_at := some now }))

/-- `archive_game` (T+24h): retry the T+4h stage once when
`videos_fetched` is still false, swallowing any exception it raises
(the session keeps the retry's partial mutations and the archive
commit persists them), then mark the game `ARCHIVED`. The second
component counts the retry attempts made. -/
def archiveGame (search : Except Unit VideoResults)
    (recap : Except Unit RecapResult) (now : Int)
    (db : GameDB) (game_id : Int) : GameDB × Nat :=
  match findGame db game_id with
  | none => (db, 0)
  | some g =>
    let (db1, retries) :=
      if g.videos_fetched = false then
        (runResultDB (processGameVideosAndRecap search recap now db game_id), 1)
      else (db, 0)
    (updateGame db1 game_id (fun gg =>
      { gg with
        status := "ARCHIVED"
        archived_at := some now
        status_updated_at := some now }), retries)

/-! ## Daily schedule check (`check_upcoming_games`) -/

/-- One upstream schedule entry as `fetch_team_schedule` returns it:
`id`, `gameState` (`"FUT"`, `"LIVE"`, `"FINAL"`, `"OFF"`), parsed
`gameDate`, and the two team abbreviations. -/
structure SchedGame where
  id : Int
  gameState : String
  gameDate : Int
  awayAbbrev : String
  homeAbbrev : String
deriving Repr, DecidableEq

/-- A stage booking: job name, game id, scheduled run time. -/
structure StageCall where
  stage : String
  game_id : Int
  run_at : Int
deriving Repr, DecidableEq

/-- Modelled from the spec: `schedule_post_game_processing` is imported
from `app.scheduler` by `check_upcoming_games` but is absent from the
source tree; per §4.1 it books the six pipeline stages at fixed
offsets (T+0, T+30min, T+2h, T+4h, T+12h, T+24h) from the estimated
end time it is given. Times are minutes. -/
def schedulePostGameProcessing (gid : Int) (estEnd : Int) : List StageCall :=
  [{ stage := "immediate", game_id := gid, run_at := estEnd },
   { stage := "detailed_stats", game_id := gid, run_at := estEnd + 30 },
   { stage := "reddit", game_id := gid, run_at := estEnd + 120 },
   { stage := "videos_and_recap", game_id := gid, run_at := estEnd + 240 },
   { stage := "quotes", game_id := gid, run_at := estEnd + 720 },
   { stage := "archive", game_id := gid, run_at := estEnd + 1440 }]

/-- Lines 36-49: look the game up; when absent create it with status
`"SCHEDULED"` for upstream `"FUT"` and the raw upstream state
otherwise. Returns the session and the row the rest of the loop body
works with. -/
def findOrCreateGame (db : GameDB) (gd : SchedGame) : GameDB × GameRow :=
  match findGame db gd.id with
  | some g => (db, g)
  | none =>
    let g : GameRow :=
      { game_id := gd.id
        game_date_utc := gd.gameDate
        status := if gd.gameState = "FUT" then "SCHEDULED" else gd.gameState
        away_team := gd.awayAbbrev
        home_team := gd.homeAbbrev }
    ({ db with games := db.games ++ [g] }, g)

/-- Games usually end about 2.5 hours (150 minutes) after start; an
estimate already in the past is replaced by the current time
(lines 56-60). -/
def estimatedEndTime (gameDate now : Int) : Int :=
  let e := gameDate + 150
  if e < now then now else e

/-- The loop body of `check_upcoming_games` for one schedule entry
(lines 30-68): create the row if new; when the upstream state is
`FINAL`/`OFF`, the stored status is not `ARCHIVED`, and basic stats
were never fetched, book the post-game stages from the (adjusted)
estimated end and stamp the row `FINAL`. Returns the session, the
bookings made, and the increment of `games_scheduled`. -/
def processScheduleEntry (now : Int) (db : GameDB) (gd : SchedGame) :
    GameDB × List StageCall × Nat :=
  let (db1, g) := findOrCreateGame db gd
  if (gd.gameState = "FINAL" ∨ gd.gameState = "OFF") ∧ g.status ≠ "ARCHIVED" then
    if g.basic_stats_fetched = false then
      let estEnd := estimatedEndTime gd.gameDate now
      let calls := schedulePostGameProcessing gd.id estEnd
      let db2 := updateGame db1 gd.id (fun gg =>
        { gg with status := "FINAL", status_updated_at := some now })
      (db2, calls, 1)
    else (db1, [], 0)
  else (db1, [], 0)

/-- `check_upcoming_games`: fold the loop body over the fetched
schedule; the count is the returned `games_scheduled`. -/
def checkUpcomingGames (now : Int) (db : GameDB) :
    List SchedGame → GameDB × List StageCall × Nat
  | [] => (db, [], 0)
  | gd :: rest =>
    let (db1, calls1, n1) := processScheduleEntry now db gd
    let (db2, calls2, n2) := checkUpcomingGames now db1 rest
    (db2, calls1 ++ calls2, n1 + n2)

/-! ## Hourly video sweep (`scheduler.check_and_fetch_videos_job`)
and its `crud/game.py` helpers. -/

/-- `get_games_needing_processing`: games in the given status whose
`videos_fetched` flag is still false. -/
def getGamesNeedingProcessing (db : GameDB) (status : String) : List GameRow :=
  db.games.filter (fun g => g.status == status && g.videos_fetched == false)

/-- `mark_videos_fetched`: set the flag and `status_updated_at` on the
looked-up game (a no-op when the id is unknown). -/
def markVideosFetched (db : GameDB) (gid : Int) (now : Int) : GameDB :=
  match findGame db gid with
  | none => db
  | some _ =>
    updateGame db gid (fun g =>
      { g with videos_fetched := true, status_updated_at := some now })

/-- The per-game loop body of the sweep: search (injected outcome per
game id; a raise is caught by the `except ... continue`), store each
category through `video_exists`/`create_video`, then
`mark_videos_fetched` unconditionally. -/
def sweepProcessGame (search : Int → Except Unit VideoResults) (now : Int)
    (db : GameDB) (g : GameRow) : GameDB :=
  match search g.game_id with
  | .error _ => db
  | .ok vr =>
    let vs1 := saveVideoIfNew db.videos g.game_id "nhl_official" "NHL" vr.nhl_official
    let vs2 := saveVideoIfNew vs1 g.game_id "professor_hockey" "Professor Hockey"
      vr.professor_hockey
    markVideosFetched { db with videos := vs2 } g.game_id now

/-- `check_and_fetch_videos_job`: select `FINAL` then `OFF` games still
missing videos (a snapshot taken before the loop) and process each. -/
def checkAndFetchVideosJob (search : Int → Except Unit VideoResults)
    (now : Int) (db : GameDB) : GameDB :=
  let games := getGamesNeedingProcessing db "FINAL"
    ++ getGamesNeedingProcessing db "OFF"
  games.foldl (sweepProcessGame search now) db

/-! ## Roster synchronization (`jobs/roster_sync.py`) -/

/-- `settings.SHARKS_TEAM_ID`. -/
def sharksTeamId : String := "SJS"

/-- One `player_info` row (`models/player_team_history.py`). -/
structure PlayerInfoRow where
  nhl_player_id : Int
  name : String
  position : Option String := none
  jersey_number : Option Int := none
  nhl_profile_url : Option String := none
  headshot_url : Option String := none
deriving Repr, DecidableEq

/-- One `player_team_history` row; `end_date = none` is an open stint. -/
structure StintRow where
  player_id : Int
  team_id : String
  team_name : String
  start_date : Int
  end_date : Option Int := none
deriving Repr, DecidableEq

structure RosterDB where
  player_info : List PlayerInfoRow := []
  history : List StintRow := []
deriving Repr, DecidableEq

/-- One roster entry as the NHL roster endpoint reports it
(`firstName`/`lastName` stand for their `["default"]` variants). -/
structure RosterPlayer where
  id : Int
  firstName : String
  lastName : String
  positionCode : Option String := none
  sweaterNumber : Option Int := none
  headshot : Option String := none
deriving Repr, DecidableEq

/-- `fetch_current_roster` payload: three position groups. -/
structure RosterData where
  forwards : List RosterPlayer := []
  defensemen : List RosterPlayer := []
  goalies : List RosterPlayer := []
deriving Repr, DecidableEq

/-- Replace the first row satisfying the predicate (mutating the ORM
object returned by `.first()`). -/
def updateFirstBy {α : Type} : List α → (α → Bool) → (α → α) → List α
  | [], _, _ => []
  | x :: xs, p, f => if p x then f x :: xs else x :: updateFirstBy xs p f

/-- Python `set` iteration determinized to first-appearance order. -/
def dedupKeepFirst (l : List Int) : List Int :=
  l.foldl (fun acc x => if acc.contains x then acc else acc ++ [x]) []

def infoMatches (pid : Int) (i : PlayerInfoRow) : Bool :=
  i.nhl_player_id == pid

def openSharksStint (pid : Int) (h : StintRow) : Bool :=
  h.player_id == pid && h.team_id == sharksTeamId && h.end_date == none

/-- `api_players_map[player_id]` (dict insertion: last write wins). -/
def apiPlayersMap (apiPlayers : List RosterPlayer) (pid : Int) :
    Option RosterPlayer :=
  apiPlayers.reverse.find? (fun p => p.id == pid)

/-- Removal branch (lines 53-69): close the player's first open Sharks
stint, counting one change when one was found. -/
def syncRemoveOne (today : Int) (st : RosterDB × Nat) (pid : Int) :
    RosterDB × Nat :=
  let (db, changes) := st
  match db.history.find? (openSharksStint pid) with
  | none => (db, changes)
  | some _ =>
    ({ db with
       history := updateFirstBy db.history (openSharksStint pid)
         (fun h => { h with end_date := some today }) },
     changes + 1)

/-- Addition branch (lines 71-106): create the master record when
absent (name is `firstName + " " + lastName`), otherwise refresh its
jersey/position/headshot, then open a new stint dated today. -/
def syncAddOne (apiPlayers : List RosterPlayer) (today : Int)
    (st : RosterDB × Nat) (pid : Int) : RosterDB × Nat :=
  let (db, changes) := st
  match apiPlayersMap apiPlayers pid with
  | none => (db, changes)
  | some p =>
    let infos :=
      match db.player_info.find? (infoMatches pid) with
      | none =>
        db.player_info ++
          [{ nhl_player_id := pid
             name := p.firstName ++ " " ++ p.lastName
             position := p.positionCode
             jersey_number := p.sweaterNumber
             nhl_profile_url := some ("https://www.nhl.com/player/" ++ toString pid)
             headshot_url := p.headshot }]
      | some _ =>
        updateFirstBy db.player_info (infoMatches pid) (fun i =>
          { i with
            jersey_number := p.sweaterNumber
            position := p.positionCode
            headshot_url := p.headshot })
    ({ player_info := infos
       history := db.history ++
         [{ player_id := pid
            team_id := sharksTeamId
            team_name := "San Jose Sharks"
            start_date := today
            end_date := none }] },
     changes + 1)

/-- Intersection branch (lines 108-124): count and apply a jersey
change, then refresh position and headshot in place. -/
def syncUpdateOne (apiPlayers : List RosterPlayer)
    (st : RosterDB × Nat) (pid : Int) : RosterDB × Nat :=
  let (db, changes) := st
  match apiPlayersMap apiPlayers pid with
  | none => (db, changes)
  | some p =>
    match db.player_info.find? (infoMatches pid) with
    | none => (db, changes)
    | some info =>
      let changes1 := if info.jersey_number ≠ p.sweaterNumber then changes + 1 else changes
      ({ db with
         player_info := updateFirstBy db.player_info (infoMatches pid) (fun i =>
           { i with
             jersey_number := p.sweaterNumber
             position := p.positionCode
             headshot_url := p.headshot }) },
       changes1)

/-- The body of `sync_sharks_roster` after a successful fetch
(lines 32-124), acting on the session's pending state: the set diff
of locally open Sharks stints against the reported roster, followed
by the three branches. -/
def applyRosterSync (today : Int) (db : RosterDB) (roster : RosterData) :
    RosterDB × Nat :=
  let currentDbRoster := db.history.filter
    (fun h => h.team_id == sharksTeamId && h.end_date == none)
  let apiPlayers := roster.forwards ++ roster.defensemen ++ roster.goalies
  let apiIds := dedupKeepFirst (apiPlayers.map (fun p => p.id))
  let dbIds := dedupKeepFirst (currentDbRoster.map (fun h => h.player_id))
  let removed := dbIds.filter (fun i => !(apiIds.contains i))
  let added := apiIds.filter (fun i => !(dbIds.contains i))
  let unchanged := apiIds.filter (fun i => dbIds.contains i)
  let st1 := removed.foldl (syncRemoveOne today) (db, 0)
  let st2 := added.foldl (syncAddOne apiPlayers today) st1
  unchanged.foldl (syncUpdateOne apiPlayers) st2

/-- A SQLAlchemy session over the roster tables: the committed store
and the pending in-session view. -/
structure RosterSession where
  committed : RosterDB
  pending : RosterDB
deriving Repr, DecidableEq

def sessCommit (s : RosterSession) : RosterSession :=
  { s with committed := s.pending }

def sessRollback (s : RosterSession) : RosterSession :=
  { s with pending := s.committed }

/-- `sync_sharks_roster`: fetch (injected outcome), apply the diff to
the pending state, commit; any exception - a failed fetch or a raise
from the final commit - triggers the `except` branch, which rolls the
session back and re-raises (`.error`). -/
def syncSharksRoster (fetch : Except String RosterData)
    (commitRaises : Bool) (today : Int) (s : RosterSession) :
    Except String Nat × RosterSession :=
  match fetch with
  | .error e => (.error e, sessRollback s)
  | .ok roster =>
    let (pending1, changes) := applyRosterSync today s.pending roster
    let s1 := { s with pending := pending1 }
    if commitRaises then (.error "commit failed", sessRollback s1)
    else (.ok changes, sessCommit s1)

/-! ## Comment CRUD (`crud/comment.py` over `models/comment.py`) -/

/-- One `comments` row: exactly the mapped columns of
`models/comment.py` (the content column is named `text`). -/
structure CommentRow where
  id : Int
  text : String
  game_id : Int
  user_id : String
  parent_id : Option Int := none
  is_deleted : Bool := false
  is_flagged : Bool := false
  deleted_by : Option String := none
  deleted_at : Option Int := none
  created_at : Int := 0
deriving Repr, DecidableEq

/-- The in-memory ORM instance: the mapped row plus any plain Python
attributes assigned to the object. SQLAlchemy accepts an assignment to
an undeclared attribute (such as `comment.content`) silently; it lands
in the instance `__dict__` only, and `commit()` persists mapped
columns alone. -/
structure CommentObj where
  row : CommentRow
  content_attr : Option String := none
deriving Repr, DecidableEq

/-- `get_comment_by_id` (the `joinedload` only eagerly loads replies). -/
def getCommentById (db : List CommentRow) (cid : Int) : Option CommentRow :=
  db.find? (fun c => c.id == cid)

/-- `delete_comment`: `False` for an unknown id; otherwise set
`is_deleted = True` (a mapped column) and `content = "[deleted]"` (an
undeclared attribute), then commit - only the mapped column reaches
the table. -/
def deleteComment (db : List CommentRow) (cid : Int) :
    Bool × List CommentRow :=
  match getCommentById db cid with
  | none => (false, db)
  | some c =>
    let obj : CommentObj :=
      { row := { c with is_deleted := true }, content_attr := some "[deleted]" }
    (true, updateFirstBy db (fun c => c.id == cid) (fun _ => obj.row))

/-! ## Helper lemmas about the session primitives -/

/-- Predicate used by `findGame`. -/
def gameIdIs (gid : Int) (g : GameRow) : Bool := g.game_id == gid

theorem findGame_eq (db : GameDB) (gid : Int) :
    findGame db gid = db.games.find? (gameIdIs gid) := rfl

theorem updateFirstGame_map_id (gs : List GameRow) (gid : Int)
    (f : GameRow → GameRow) (hf : ∀ g, (f g).game_id = g.game_id) :
    (updateFirstGame gs gid f).map (fun g => g.game_id)
      = gs.map (fun g => g.game_id) := by
  induction gs with
  | nil => rfl
  | cons g gs ih =>
    by_cases h : g.game_id == gid
    · simp [updateFirstGame, h, hf]
    · simp [updateFirstGame, h, ih]

theorem find?_updateFirstGame_self (gs : List GameRow) (gid : Int)
    (f : GameRow → GameRow) (hf : ∀ g, (f g).game_id = g.game_id) :
    (updateFirstGame gs gid f).find? (gameIdIs gid)
      = (gs.find? (gameIdIs gid)).map f := by
  induction gs with
  | nil => rfl
  | cons g gs ih =>
    cases hg : gameIdIs gid g with
    | true =>
      have hb : (g.game_id == gid) = true := hg
      have hfb : gameIdIs gid (f g) = true := by
        simp only [gameIdIs] at hg ⊢
        rw [hf]; exact hg
      rw [updateFirstGame, if_pos hb, List.find?_cons_of_pos _ hfb,
        List.find?_cons_of_pos _ hg, Option.map_some']
    | false =>
      have hb : (g.game_id == gid) = false := hg
      rw [updateFirstGame, if_neg (by simp [hb]), List.find?_cons_of_neg _ (by simp [hg]),
        List.find?_cons_of_neg _ (by simp [hg]), ih]

theorem find?_updateFirstGame_other (gs : List GameRow) (gid x : Int)
    (f : GameRow → GameRow) (hf : ∀ g, (f g).game_id = g.game_id)
    (hne : x ≠ gid) :
    (updateFirstGame gs gid f).find? (gameIdIs x)
      = gs.find? (gameIdIs x) := by
  induction gs with
  | nil => rfl
  | cons g gs ih =>
    by_cases h : g.game_id == gid
    · have h' : g.game_id = gid := by simpa using h
      have hgx : (gameIdIs x g) = false := by
        simp [gameIdIs, h']
        exact fun hc => absurd hc.symm hne
      have hfx : (gameIdIs x (f g)) = false := by
        simp [gameIdIs, hf, h']
        exact fun hc => absurd hc.symm hne
      simp [updateFirstGame, h, List.find?, hgx, hfx]
    · simp only [updateFirstGame, h, if_false, Bool.false_eq_true]
      rw [List.find?, List.find?]
      cases hgx : gameIdIs x g with
      | true => rfl
      | false => exact ih

theorem updateFirstGame_eq_of_none (gs : List GameRow) (gid : Int)
    (f : GameRow → GameRow) (h : gs.find? (gameIdIs gid) = none) :
    updateFirstGame gs gid f = gs := by
  induction gs with
  | nil => rfl
  | cons g gs ih =>
    rw [List.find?] at h
    cases hg : gameIdIs gid g with
    | true => simp [hg] at h
    | false =>
      rw [hg] at h
      have hb : (g.game_id == gid) = false := hg
      simp [updateFirstGame, hb, ih h]

theorem updateFirstGame_append_of_none (gs ys : List GameRow) (gid : Int)
    (f : GameRow → GameRow) (h : gs.find? (gameIdIs gid) = none) :
    updateFirstGame (gs ++ ys) gid f = gs ++ updateFirstGame ys gid f := by
  induction gs with
  | nil => rfl
  | cons g gs ih =>
    rw [List.find?] at h
    cases hg : gameIdIs gid g with
    | true => simp [hg] at h
    | false =>
      rw [hg] at h
      have hb : (g.game_id == gid) = false := hg
      simp [updateFirstGame, hb, ih h]

theorem mem_updateFirstGame (gs : List GameRow) (gid : Int)
    (f : GameRow → GameRow) (g : GameRow) (hmem : g ∈ gs) :
    ∃ g' ∈ updateFirstGame gs gid f, g' = g ∨ g' = f g := by
  induction gs with
  | nil => cases hmem
  | cons y ys ih =>
    by_cases h : y.game_id == gid
    · rcases List.mem_cons.mp hmem with hg | hg
      · exact ⟨f y, by simp [updateFirstGame, h], Or.inr (by rw [hg])⟩
      · exact ⟨g, by simp [updateFirstGame, h, hg], Or.inl rfl⟩
    · rcases List.mem_cons.mp hmem with hg | hg
      · exact ⟨y, by simp [updateFirstGame, h], Or.inl hg.symm⟩
      · rcases ih hg with ⟨g', hg', hor⟩
        exact ⟨g', by simp [updateFirstGame, h]; exact Or.inr hg', hor⟩

theorem mem_updateFirstGame_of_ne (gs : List GameRow) (gid : Int)
    (f : GameRow → GameRow) (r g : GameRow)
    (hfind : gs.find? (gameIdIs gid) = some r) (hmem : g ∈ gs) (hne : g ≠ r) :
    g ∈ updateFirstGame gs gid f := by
  induction gs with
  | nil => cases hmem
  | cons y ys ih =>
    rw [List.find?] at hfind
    cases hy : gameIdIs gid y with
    | true =>
      rw [hy] at hfind
      have hb : (y.game_id == gid) = true := hy
      have hyr : y = r := by simpa using hfind
      rcases List.mem_cons.mp hmem with hg | hg
      · exact absurd (hg.trans hyr) hne
      · simp [updateFirstGame, hb, hg]
    | false =>
      rw [hy] at hfind
      have hb : (y.game_id == gid) = false := hy
      rcases List.mem_cons.mp hmem with hg | hg
      · simp [updateFirstGame, hb, hg]
      · simp [updateFirstGame, hb]
        exact Or.inr (ih hfind hg)

theorem updateFirstGame_comp (gs : List GameRow) (gid : Int)
    (f h : GameRow → GameRow) (hf : ∀ g, (f g).game_id = g.game_id) :
    updateFirstGame (updateFirstGame gs gid f) gid h
      = updateFirstGame gs gid (fun g => h (f g)) := by
  induction gs with
  | nil => rfl
  | cons g gs ih =>
    cases hg : (g.game_id == gid) with
    | true =>
      have hfb : ((f g).game_id == gid) = true := by rw [hf]; exact hg
      simp [updateFirstGame, hg, hfb]
    | false => simp [updateFirstGame, hg, ih]

theorem statusRank_le_four (s : String) : statusRank s ≤ 4 := by
  unfold statusRank
  repeat' split
  all_goals omega

theorem find?_isSome_of_mem_ids (gs : List GameRow) (x : Int)
    (h : x ∈ gs.map (fun g => g.game_id)) :
    (gs.find? (gameIdIs x)).isSome := by
  induction gs with
  | nil => simp at h
  | cons g gs ih =>
    rw [List.map_cons, List.mem_cons] at h
    rw [List.find?]
    cases hg : gameIdIs x g with
    | true => simp
    | false =>
      rcases h with h | h
      · exfalso
        simp [gameIdIs, h] at hg
      · exact ih h

theorem find?_eq_of_nodup_ids (gs : List GameRow) (g : GameRow)
    (hnodup : (gs.map (fun x => x.game_id)).Nodup) (hmem : g ∈ gs) :
    gs.find? (gameIdIs g.game_id) = some g := by
  induction gs with
  | nil => cases hmem
  | cons y ys ih =>
    rw [List.map_cons, List.nodup_cons] at hnodup
    rw [List.find?]
    rcases List.mem_cons.mp hmem with hg | hg
    · subst hg
      simp [gameIdIs]
    · cases hy : gameIdIs g.game_id y with
      | true =>
        exfalso
        have : y.game_id = g.game_id := by simpa [gameIdIs] using hy
        exact hnodup.1 (this ▸ List.mem_map_of_mem (fun x => x.game_id) hg)
      | false => exact ih hnodup.2 hg

/-! Helper lemmas about the video save step. -/

/-- The invariant of the `uq_game_video` uniqueness constraint: no two
rows share `(game_id, youtube_id)`. -/
def videoPairUnique (vs : List VideoRow) : Prop :=
  vs.Pairwise (fun a b => ¬(a.game_id = b.game_id ∧ a.youtube_id = b.youtube_id))

instance (vs : List VideoRow) : Decidable (videoPairUnique vs) := by
  unfold videoPairUnique
  exact List.instDecidablePairwise vs

theorem videoExists_saveVideoIfNew_self (vs : List VideoRow) (gid : Int)
    (t c : String) (d : VideoData) :
    videoExists (saveVideoIfNew vs gid t c (some d)) gid d.video_id = true := by
  rw [saveVideoIfNew]
  cases hex : videoExists vs gid d.video_id with
  | true => rw [if_pos rfl]; exact hex
  | false =>
    rw [if_neg (by simp)]
    unfold videoExists
    rw [List.any_append]
    simp [List.any_cons]

theorem saveVideoIfNew_of_exists (vs : List VideoRow) (gid : Int)
    (t c : String) (d : VideoData)
    (h : videoExists vs gid d.video_id = true) :
    saveVideoIfNew vs gid t c (some d) = vs := by
  rw [saveVideoIfNew, if_pos h]

theorem videoExists_mono (vs : List VideoRow) (gid g : Int) (t c : String)
    (od : Option VideoData) (y : String)
    (h : videoExists vs g y = true) :
    videoExists (saveVideoIfNew vs gid t c od) g y = true := by
  cases od with
  | none => simpa [saveVideoIfNew] using h
  | some d =>
    rw [saveVideoIfNew]
    cases hex : videoExists vs gid d.video_id with
    | true => rw [if_pos rfl]; exact h
    | false =>
      rw [if_neg (by simp)]
      unfold videoExists at h ⊢
      rw [List.any_append, h, Bool.true_or]

theorem videoPairUnique_saveVideoIfNew (vs : List VideoRow) (gid : Int)
    (t c : String) (od : Option VideoData) (h : videoPairUnique vs) :
    videoPairUnique (saveVideoIfNew vs gid t c od) := by
  cases od with
  | none => simpa [saveVideoIfNew] using h
  | some d =>
    rw [saveVideoIfNew]
    cases hex : videoExists vs gid d.video_id with
    | true => rw [if_pos rfl]; exact h
    | false =>
      rw [if_neg (by simp)]
      unfold videoPairUnique at h ⊢
      rw [List.pairwise_append]
      refine ⟨h, List.pairwise_singleton _ _, ?_⟩
      intro a ha b hb
      rw [List.mem_singleton] at hb
      subst hb
      intro hab
      rw [videoExists, List.any_eq_false] at hex
      have hx := hex a ha
      simp only [Bool.and_eq_true, beq_iff_eq, not_and] at hx
      exact hx hab.1 hab.2

/-! ## Claim theorems -/

/-- **C9.** For every key and JSON-serializable value, with the cache
backend enabled and healthy, `set(key, value, ttl=300)` followed
immediately by `get(key)` returns that same value, and
`invalidate(key)` followed by `get(key)` returns a miss (`None`). -/
theorem cache_set_get_invalidate (st : RedisState) (now : Int) (key : String)
    (v : JVal) (h : jsonSerializable v) :
    cacheGet true (cacheSet true st now key v 300).2 now key = some v ∧
    cacheGet true
      (cacheInvalidate true (cacheSet true st now key v 300).2 now key).2
      now key = none := by
  obtain ⟨hround, hne⟩ := h
  constructor
  · simp only [cacheSet, cacheGet, redisSetex, redisGetRaw, Bool.not_true,
      Bool.false_eq_true, if_false]
    rw [List.find?_cons_of_pos _ (by simp)]
    have h300 : now < now + 300 := by omega
    simp [h300, hne, hround]
  · have hdel : ∀ (st' : RedisState) (t t' : Int),
        redisGetRaw (redisDel st' t key).1 t' key = none := by
      intro st' t t'
      unfold redisDel redisGetRaw
      have hnone : (st'.store.filter (fun e => !(e.1 == key))).find?
          (fun e => e.1 == key) = none := by
        rw [List.find?_eq_none]
        intro x hx
        rw [List.mem_filter] at hx
        simpa using hx.2
      simp [hnone]
    simp only [cacheInvalidate, Bool.not_true, Bool.false_eq_true, if_false]
    simp only [cacheGet, Bool.not_true, Bool.false_eq_true, if_false]
    rw [hdel]

/-- Witness for C9 at a concrete cache state, key and value. -/
theorem cache_set_get_invalidate_witness :
    cacheGet true
      (cacheSet true { store := [] } 0 "games:recent:limit=10"
        (.jobj [("score", .jnum 3), ("ok", .jbool true),
                ("tags", .jarr [.jstr "sjs vs det", .jnull])]) 300).2
      0 "games:recent:limit=10"
      = some (.jobj [("score", .jnum 3), ("ok", .jbool true),
                     ("tags", .jarr [.jstr "sjs vs det", .jnull])]) ∧
    cacheGet true
      (cacheInvalidate true
        (cacheSet true { store := [] } 0 "games:recent:limit=10"
          (.jobj [("score", .jnum 3), ("ok", .jbool true),
                  ("tags", .jarr [.jstr "sjs vs det", .jnull])]) 300).2
        0 "games:recent:limit=10").2
      0 "games:recent:limit=10" = none :=
  cache_set_get_invalidate { store := [] } 0 "games:recent:limit=10"
    (.jobj [("score", .jnum 3), ("ok", .jbool true),
            ("tags", .jarr [.jstr "sjs vs det", .jnull])])
    ⟨by rfl, by decide⟩

theorem findGame_updateGame_self (db : GameDB) (gid : Int)
    (f : GameRow → GameRow) (hf : ∀ g, (f g).game_id = g.game_id) :
    findGame (updateGame db gid f) gid = (findGame db gid).map f :=
  find?_updateFirstGame_self db.games gid f hf

theorem findGame_updateGame_other (db : GameDB) (gid x : Int)
    (f : GameRow → GameRow) (hf : ∀ g, (f g).game_id = g.game_id)
    (hne : x ≠ gid) :
    findGame (updateGame db gid f) x = findGame db x :=
  find?_updateFirstGame_other db.games gid x f hf hne

theorem mem_scorersOfGroup (ps : List PlayerStat) (n : String) :
    n ∈ scorersOfGroup ps ↔ ∃ p ∈ ps, p.goals > 0 ∧ p.name = some n := by
  unfold scorersOfGroup
  rw [List.mem_filterMap]
  constructor
  · rintro ⟨p, hp, hf⟩
    by_cases hg : p.goals > 0
    · rw [if_pos hg] at hf
      exact ⟨p, hp, hg, hf⟩
    · rw [if_neg hg] at hf
      cases hf
  · rintro ⟨p, hp, hg, hn⟩
    exact ⟨p, hp, by rw [if_pos hg]; exact hn⟩

/-- A boxscore whose only goal belongs to a goalie (goalie goals are
rare but legal: empty-net situations). -/
def goalieBoxscore : Boxscore :=
  { awayTeam := { abbrev_ := "SJS", commonName := "Sharks", score := 1 }
    homeTeam := { abbrev_ := "DET", commonName := "Red Wings", score := 0 }
    playerByGameStats :=
      { awayTeam := { goalies := [{ goals := 1, name := some "Scoring Goalie" }] }
        homeTeam := {} } }

/-- A boxscore with one forward and one defense scorer and no goalie
scorer. -/
def fwdDefBoxscore : Boxscore :=
  { awayTeam := { abbrev_ := "SJS", commonName := "Sharks", score := 2 }
    homeTeam := { abbrev_ := "DET", commonName := "Red Wings", score := 0 }
    playerByGameStats :=
      { awayTeam := { forwards := [{ goals := 1, name := some "F One" }]
                      defense := [{ goals := 1, name := some "D One" }] }
        homeTeam := {} } }

def sharksFinalRow : GameRow :=
  { game_id := 1, game_date_utc := 0, status := "FINAL",
    away_team := "SJS", home_team := "DET" }

def goalieGameDB : GameDB := { games := [sharksFinalRow] }

/-- **C7 counterexample.** On a payload whose only `goals > 0` player
is a goalie, the T+0 stage stores an empty scorers list while
`transform_boxscore` extracts the goalie, so the stage neither
collects every `goals > 0` player across all position groups nor
agrees with the reference extraction. -/
theorem t0_goalie_scorer_dropped :
    (runResultDB (processGameImmediate (.ok goalieBoxscore) 0 goalieGameDB 1)).games.map
        (fun g => g.scorers) = [[]] ∧
    transformBoxscoreScorers goalieBoxscore = ["Scoring Goalie"] ∧
    extractScorersT0 goalieBoxscore ≠ transformBoxscoreScorers goalieBoxscore := by
  decide

/-- **C7 (amended).** The T+0 stage stores as `scorers` exactly the
names of the players with `goals > 0` among the `forwards` and
`defense` groups of both team sides, in traversal order (the `goalies`
group is not scanned); the stored list agrees with the reference
extraction of `transform_boxscore` on every payload in which the
goalie groups contribute no scorer. -/
theorem process_game_immediate_scorers (b : Boxscore) (now : Int)
    (db : GameDB) (gid : Int) (g : GameRow)
    (hfind : findGame db gid = some g) :
    (∃ g', findGame (runResultDB (processGameImmediate (.ok b) now db gid)) gid
        = some g' ∧ g'.scorers = extractScorersT0 b) ∧
    (∀ n, n ∈ extractScorersT0 b ↔
      ∃ ps ∈ [b.playerByGameStats.awayTeam.forwards,
              b.playerByGameStats.awayTeam.defense,
              b.playerByGameStats.homeTeam.forwards,
              b.playerByGameStats.homeTeam.defense],
        ∃ p ∈ ps, p.goals > 0 ∧ p.name = some n) ∧
    (scorersOfGroup b.playerByGameStats.awayTeam.goalies = [] →
      scorersOfGroup b.playerByGameStats.homeTeam.goalies = [] →
      extractScorersT0 b = transformBoxscoreScorers b) := by
  refine ⟨?_, ?_, ?_⟩
  · unfold processGameImmediate
    rw [hfind]
    simp only [runResultDB]
    rw [findGame_updateGame_self]
    · rw [hfind, Option.map_some']
      exact ⟨_, rfl, rfl⟩
    · exact fun _ => rfl
  · intro n
    simp only [extractScorersT0, List.mem_append, mem_scorersOfGroup,
      List.mem_cons, List.not_mem_nil, or_false]
    constructor
    · rintro (((h | h) | h) | h)
      · exact ⟨_, Or.inl rfl, h⟩
      · exact ⟨_, Or.inr (Or.inl rfl), h⟩
      · exact ⟨_, Or.inr (Or.inr (Or.inl rfl)), h⟩
      · exact ⟨_, Or.inr (Or.inr (Or.inr rfl)), h⟩
    · rintro ⟨ps, (rfl | rfl | rfl | rfl), hp⟩
      · exact Or.inl (Or.inl (Or.inl hp))
      · exact Or.inl (Or.inl (Or.inr hp))
      · exact Or.inl (Or.inr hp)
      · exact Or.inr hp
  · intro h1 h2
    simp [extractScorersT0, transformBoxscoreScorers, h1, h2]

/-- Witness for the amended C7 at a concrete payload with forward and
defense scorers. -/
theorem process_game_immediate_scorers_witness :
    (∃ g', findGame (runResultDB (processGameImmediate (.ok fwdDefBoxscore) 0
        goalieGameDB 1)) 1 = some g' ∧ g'.scorers = extractScorersT0 fwdDefBoxscore) ∧
    extractScorersT0 fwdDefBoxscore = transformBoxscoreScorers fwdDefBoxscore :=
  ⟨(process_game_immediate_scorers fwdDefBoxscore 0 goalieGameDB 1
      sharksFinalRow (by decide)).1,
   (process_game_immediate_scorers fwdDefBoxscore 0 goalieGameDB 1
      sharksFinalRow (by decide)).2.2 (by decide) (by decide)⟩

/-- **C8.** Evaluation of `delete_comment` at a concrete existing
comment: it returns `True` and sets `is_deleted`, but the `[deleted]`
placeholder is assigned to the unmapped attribute `content` (the model
maps the column `text`), so the stored text read back by subsequent
queries is the original content, not the placeholder; an unknown id
returns `False` and changes nothing. -/
theorem delete_comment_divergence :
    (deleteComment
      [{ id := 1, text := "Great goal by the Sharks!", game_id := 2024020500,
         user_id := "user_abc" }] 1).1 = true ∧
    (deleteComment
      [{ id := 1, text := "Great goal by the Sharks!", game_id := 2024020500,
         user_id := "user_abc" }] 1).2 =
      [{ id := 1, text := "Great goal by the Sharks!", game_id := 2024020500,
         user_id := "user_abc", is_deleted := true }] ∧
    (deleteComment
      [{ id := 1, text := "Great goal by the Sharks!", game_id := 2024020500,
         user_id := "user_abc" }] 1).2.map (fun c => c.text)
      ≠ ["[deleted]"] ∧
    deleteComment
      [{ id := 1, text := "Great goal by the Sharks!", game_id := 2024020500,
         user_id := "user_abc" }] 42 =
      (false, [{ id := 1, text := "Great goal by the Sharks!", game_id := 2024020500,
                 user_id := "user_abc" }]) := by
  decide

theorem findGame_set_videos (db : GameDB) (vs : List VideoRow) (gid : Int) :
    findGame { db with videos := vs } gid = findGame db gid := rfl

theorem videos_of_videosAndRecap (vr : VideoResults)
    (recap : Except Unit RecapResult) (now : Int) (db : GameDB) (gid : Int)
    (g : GameRow) (hf : findGame db gid = some g) :
    (runResultDB (processGameVideosAndRecap (.ok vr) recap now db gid)).videos =
      saveVideoIfNew (saveVideoIfNew db.videos gid "nhl_official" "NHL" vr.nhl_official)
        gid "professor_hockey" "Professor Hockey" vr.professor_hockey := by
  unfold processGameVideosAndRecap
  rw [hf]
  cases recap <;> rfl

theorem findGame_updateGame_isSome (db : GameDB) (gid : Int)
    (f : GameRow → GameRow) (hf : ∀ g, (f g).game_id = g.game_id)
    (h : ∃ g, findGame db gid = some g) :
    ∃ g', findGame (updateGame db gid f) gid = some g' := by
  obtain ⟨g, hg⟩ := h
  rw [findGame_updateGame_self db gid f hf, hg]
  exact ⟨_, rfl⟩

theorem findGame_videosAndRecap (search : Except Unit VideoResults)
    (recap : Except Unit RecapResult) (now : Int) (db : GameDB) (gid : Int)
    (g : GameRow) (hf : findGame db gid = some g) :
    ∃ g', findGame (runResultDB (processGameVideosAndRecap search recap now db gid))
      gid = some g' := by
  unfold processGameVideosAndRecap
  rw [hf]
  cases search with
  | error e => exact ⟨g, hf⟩
  | ok vr =>
    cases recap with
    | error e =>
      simp only [runResultDB]
      exact findGame_updateGame_isSome _ _ _ (fun _ => rfl) ⟨g, hf⟩
    | ok rr =>
      simp only [runResultDB]
      exact findGame_updateGame_isSome _ _ _ (fun _ => rfl)
        (findGame_updateGame_isSome _ _ _ (fun _ => rfl) ⟨g, hf⟩)

/-- **C3.** With identical upstream search results, a second run of the
video-enrichment stage inserts no new `Video` row (the video table
after the second run equals the table after the first), and under the
`(game_id, youtube_id)` uniqueness invariant the table stays
pairwise-unique after both runs. The recap outcomes and clock values
of the two runs are arbitrary. -/
theorem video_insertion_idempotent (db : GameDB) (gid : Int) (vr : VideoResults)
    (recap1 recap2 : Except Unit RecapResult) (now1 now2 : Int)
    (huniq : videoPairUnique db.videos) :
    (runResultDB (processGameVideosAndRecap (.ok vr) recap2 now2
        (runResultDB (processGameVideosAndRecap (.ok vr) recap1 now1 db gid)) gid)).videos
      = (runResultDB (processGameVideosAndRecap (.ok vr) recap1 now1 db gid)).videos ∧
    videoPairUnique
      (runResultDB (processGameVideosAndRecap (.ok vr) recap2 now2
        (runResultDB (processGameVideosAndRecap (.ok vr) recap1 now1 db gid)) gid)).videos := by
  cases hf : findGame db gid with
  | none =>
    have h1 : processGameVideosAndRecap (.ok vr) recap1 now1 db gid = .ok db := by
      unfold processGameVideosAndRecap
      rw [hf]
    have h2 : processGameVideosAndRecap (.ok vr) recap2 now2 db gid = .ok db := by
      unfold processGameVideosAndRecap
      rw [hf]
    rw [h1]
    simp only [runResultDB]
    rw [h2]
    simp only [runResultDB]
    exact ⟨trivial, huniq⟩
  | some g =>
    have hv1 : (runResultDB (processGameVideosAndRecap (.ok vr) recap1 now1 db gid)).videos =
        saveVideoIfNew (saveVideoIfNew db.videos gid "nhl_official" "NHL" vr.nhl_official)
          gid "professor_hockey" "Professor Hockey" vr.professor_hockey :=
      videos_of_videosAndRecap vr recap1 now1 db gid g hf
    obtain ⟨g1, hg1⟩ := findGame_videosAndRecap (.ok vr) recap1 now1 db gid g hf
    have hv2 : (runResultDB (processGameVideosAndRecap (.ok vr) recap2 now2
        (runResultDB (processGameVideosAndRecap (.ok vr) recap1 now1 db gid)) gid)).videos =
        saveVideoIfNew (saveVideoIfNew
            (runResultDB (processGameVideosAndRecap (.ok vr) recap1 now1 db gid)).videos
            gid "nhl_official" "NHL" vr.nhl_official)
          gid "professor_hockey" "Professor Hockey" vr.professor_hockey :=
      videos_of_videosAndRecap vr recap2 now2 _ gid g1 hg1
    have hA : saveVideoIfNew
        (runResultDB (processGameVideosAndRecap (.ok vr) recap1 now1 db gid)).videos
        gid "nhl_official" "NHL" vr.nhl_official
        = (runResultDB (processGameVideosAndRecap (.ok vr) recap1 now1 db gid)).videos := by
      cases ho : vr.nhl_official with
      | none => rfl
      | some d =>
        apply saveVideoIfNew_of_exists
        rw [hv1, ho]
        exact videoExists_mono _ _ _ _ _ _ _
          (videoExists_saveVideoIfNew_self db.videos gid _ _ d)
    have hB : saveVideoIfNew
        (runResultDB (processGameVideosAndRecap (.ok vr) recap1 now1 db gid)).videos
        gid "professor_hockey" "Professor Hockey" vr.professor_hockey
        = (runResultDB (processGameVideosAndRecap (.ok vr) recap1 now1 db gid)).videos := by
      cases ho : vr.professor_hockey with
      | none => rfl
      | some d =>
        apply saveVideoIfNew_of_exists
        rw [hv1, ho]
        exact videoExists_saveVideoIfNew_self _ gid _ _ d
    have hfinal : (runResultDB (processGameVideosAndRecap (.ok vr) recap2 now2
        (runResultDB (processGameVideosAndRecap (.ok vr) recap1 now1 db gid)) gid)).videos
        = (runResultDB (processGameVideosAndRecap (.ok vr) recap1 now1 db gid)).videos := by
      rw [hv2, hA, hB]
    refine ⟨hfinal, ?_⟩
    rw [hfinal, hv1]
    exact videoPairUnique_saveVideoIfNew _ _ _ _ _
      (videoPairUnique_saveVideoIfNew _ _ _ _ _ huniq)

/-- Witness for C3: a fresh game, two search hits, both runs succeed. -/
theorem video_insertion_idempotent_witness :
    (runResultDB (processGameVideosAndRecap
        (.ok { nhl_official := some { video_id := "ytA", title := "Highlights" },
               professor_hockey := some { video_id := "ytB", title := "Recap" } })
        (.ok { summary_line := "SJS win", recap_text := "..." }) 1
        (runResultDB (processGameVideosAndRecap
          (.ok { nhl_official := some { video_id := "ytA", title := "Highlights" },
                 professor_hockey := some { video_id := "ytB", title := "Recap" } })
          (.ok { summary_line := "SJS win", recap_text := "..." }) 0
          goalieGameDB 1)) 1)).videos
      = (runResultDB (processGameVideosAndRecap
          (.ok { nhl_official := some { video_id := "ytA", title := "Highlights" },
                 professor_hockey := some { video_id := "ytB", title := "Recap" } })
          (.ok { summary_line := "SJS win", recap_text := "..." }) 0
          goalieGameDB 1)).videos ∧
    videoPairUnique
      (runResultDB (processGameVideosAndRecap
        (.ok { nhl_official := some { video_id := "ytA", title := "Highlights" },
               professor_hockey := some { video_id := "ytB", title := "Recap" } })
        (.ok { summary_line := "SJS win", recap_text := "..." }) 1
        (runResultDB (processGameVideosAndRecap
          (.ok { nhl_official := some { video_id := "ytA", title := "Highlights" },
                 professor_hockey := some { video_id := "ytB", title := "Recap" } })
          (.ok { summary_line := "SJS win", recap_text := "..." }) 0
          goalieGameDB 1)) 1)).videos :=
  video_insertion_idempotent goalieGameDB 1
    { nhl_official := some { video_id := "ytA", title := "Highlights" },
      professor_hockey := some { video_id := "ytB", title := "Recap" } }
    (.ok { summary_line := "SJS win", recap_text := "..." })
    (.ok { summary_line := "SJS win", recap_text := "..." }) 0 1 (by decide)

/-- **C4.** On a game the archive stage finds: exactly one retry of the
video-enrichment stage is attempted iff `videos_fetched` is false at
that moment, and whatever the injected search/recap outcomes do
(succeed or raise - a raise is swallowed), the game ends with status
`ARCHIVED` and `archived_at` / `status_updated_at` stamped. -/
theorem archive_game_retries_and_archives (search : Except Unit VideoResults)
    (recap : Except Unit RecapResult) (now : Int) (db : GameDB) (gid : Int)
    (g : GameRow) (hf : findGame db gid = some g) :
    (archiveGame search recap now db gid).2
      = (if g.videos_fetched then 0 else 1) ∧
    ∃ g', findGame (archiveGame search recap now db gid).1 gid = some g' ∧
      g'.status = "ARCHIVED" ∧ g'.archived_at = some now ∧
      g'.status_updated_at = some now := by
  unfold archiveGame
  rw [hf]
  cases hvf : g.videos_fetched with
  | true =>
    simp only [hvf]
    rw [if_neg (show ¬(true = false) by simp)]
    dsimp only
    constructor
    · rfl
    · rw [findGame_updateGame_self]
      · rw [hf, Option.map_some']
        exact ⟨_, rfl, rfl, rfl, rfl⟩
      · exact fun _ => rfl
  | false =>
    simp only [hvf]
    rw [if_pos trivial]
    dsimp only
    constructor
    · rfl
    · obtain ⟨g1, hg1⟩ := findGame_videosAndRecap search recap now db gid g hf
      rw [findGame_updateGame_self]
      · rw [hg1, Option.map_some']
        exact ⟨_, rfl, rfl, rfl, rfl⟩
      · exact fun _ => rfl

/-- Witness for C4: a `FINAL` game with `videos_fetched` still false
and a failing retry still ends `ARCHIVED` with one retry attempted. -/
theorem archive_game_retries_and_archives_witness :
    (archiveGame (.error ()) (.error ()) 7 goalieGameDB 1).2
      = (if sharksFinalRow.videos_fetched then 0 else 1) ∧
    ∃ g', findGame (archiveGame (.error ()) (.error ()) 7 goalieGameDB 1).1 1
        = some g' ∧ g'.status = "ARCHIVED" ∧ g'.archived_at = some 7 ∧
        g'.status_updated_at = some 7 :=
  archive_game_retries_and_archives (.error ()) (.error ()) 7 goalieGameDB 1
    sharksFinalRow (by decide)

/-! Helper lemma: `check_upcoming_games` splits over a schedule split. -/

theorem checkUpcomingGames_append (now : Int) (db : GameDB)
    (pre post : List SchedGame) :
    checkUpcomingGames now db (pre ++ post)
      = ((checkUpcomingGames now (checkUpcomingGames now db pre).1 post).1,
         (checkUpcomingGames now db pre).2.1
           ++ (checkUpcomingGames now (checkUpcomingGames now db pre).1 post).2.1,
         (checkUpcomingGames now db pre).2.2
           + (checkUpcomingGames now (checkUpcomingGames now db pre).1 post).2.2) := by
  induction pre generalizing db with
  | nil => simp [checkUpcomingGames]
  | cons gd rest ih =>
    simp only [List.cons_append, checkUpcomingGames, List.append_eq]
    rw [ih]
    simp [List.append_assoc, Nat.add_assoc]

/-- **C1.** For every game of the fetched schedule whose upstream state
is `FINAL`/`OFF` and whose row (looked up or created at the moment that
entry is processed) is not `ARCHIVED` and has `basic_stats_fetched`
false, `check_upcoming_games` books the full T+0..T+24h stage sequence
through the scheduler's booking function, anchored at the kickoff plus
2h30m, replaced by the current time when that estimate is in the past.
(`schedule_post_game_processing` itself is modelled from the spec: it
is imported from `app.scheduler` but missing from the source tree.) -/
theorem check_upcoming_games_schedules_pipeline (now : Int) (db : GameDB)
    (pre post : List SchedGame) (gd : SchedGame)
    (hstate : gd.gameState = "FINAL" ∨ gd.gameState = "OFF")
    (harch : ((findOrCreateGame (checkUpcomingGames now db pre).1 gd).2).status
      ≠ "ARCHIVED")
    (hflag : ((findOrCreateGame (checkUpcomingGames now db pre).1 gd).2).basic_stats_fetched
      = false) :
    (checkUpcomingGames now db (pre ++ gd :: post)).2.1
      = (checkUpcomingGames now db pre).2.1
        ++ schedulePostGameProcessing gd.id (estimatedEndTime gd.gameDate now)
        ++ (checkUpcomingGames now
             (processScheduleEntry now (checkUpcomingGames now db pre).1 gd).1
             post).2.1 ∧
    estimatedEndTime gd.gameDate now
      = (if gd.gameDate + 150 < now then now else gd.gameDate + 150) := by
  constructor
  · rw [checkUpcomingGames_append]
    have hentry : (processScheduleEntry now (checkUpcomingGames now db pre).1 gd).2.1
        = schedulePostGameProcessing gd.id (estimatedEndTime gd.gameDate now) := by
      unfold processScheduleEntry
      rcases hfc : findOrCreateGame (checkUpcomingGames now db pre).1 gd with ⟨db1, g⟩
      simp only [hfc] at harch hflag ⊢
      rw [if_pos ⟨hstate, harch⟩, if_pos hflag]
    have hrec : checkUpcomingGames now (checkUpcomingGames now db pre).1 (gd :: post)
        = ((checkUpcomingGames now
              (processScheduleEntry now (checkUpcomingGames now db pre).1 gd).1 post).1,
           (processScheduleEntry now (checkUpcomingGames now db pre).1 gd).2.1
             ++ (checkUpcomingGames now
                  (processScheduleEntry now (checkUpcomingGames now db pre).1 gd).1
                  post).2.1,
           (processScheduleEntry now (checkUpcomingGames now db pre).1 gd).2.2
             + (checkUpcomingGames now
                  (processScheduleEntry now (checkUpcomingGames now db pre).1 gd).1
                  post).2.2) := rfl
    rw [hrec, hentry]
    simp [List.append_assoc]
  · rfl

/-- Witness for C1: an empty database, a single `FINAL` schedule entry
whose estimated end is in the past, run at `now = 500`. -/
theorem check_upcoming_games_schedules_pipeline_witness :
    (checkUpcomingGames 500 { games := [] }
        ([] ++ ({ id := 7, gameState := "FINAL", gameDate := 0,
                  awayAbbrev := "SJS", homeAbbrev := "DET" } : SchedGame) :: [])).2.1
      = (checkUpcomingGames 500 { games := [] } []).2.1
        ++ schedulePostGameProcessing 7 (estimatedEndTime 0 500)
        ++ (checkUpcomingGames 500
             (processScheduleEntry 500 (checkUpcomingGames 500 { games := [] } []).1
               { id := 7, gameState := "FINAL", gameDate := 0,
                 awayAbbrev := "SJS", homeAbbrev := "DET" }).1 []).2.1 ∧
    estimatedEndTime 0 500 = (if (0 : Int) + 150 < 500 then 500 else 0 + 150) :=
  check_upcoming_games_schedules_pipeline 500 { games := [] } [] []
    { id := 7, gameState := "FINAL", gameDate := 0,
      awayAbbrev := "SJS", homeAbbrev := "DET" }
    (Or.inl rfl) (by decide) (by decide)

/-! Status-evolution lemmas for the four pipeline operations. -/

theorem processScheduleEntry_status (now : Int) (db : GameDB) (gd : SchedGame)
    (g : GameRow) (hmem : g ∈ db.games) :
    (∃ g' ∈ (processScheduleEntry now db gd).1.games,
      g'.status = g.status ∨ g'.status = "FINAL") ∧
    (g.status = "ARCHIVED" → g ∈ (processScheduleEntry now db gd).1.games) := by
  unfold processScheduleEntry
  cases hfind : findGame db gd.id with
  | some r =>
    have hfc : findOrCreateGame db gd = (db, r) := by
      unfold findOrCreateGame
      rw [hfind]
    simp only [hfc]
    by_cases hcond : (gd.gameState = "FINAL" ∨ gd.gameState = "OFF") ∧ r.status ≠ "ARCHIVED"
    · rw [if_pos hcond]
      by_cases hflag : r.basic_stats_fetched = false
      · rw [if_pos hflag]
        dsimp only [updateGame]
        constructor
        · obtain ⟨g', hg'mem, hor⟩ := mem_updateFirstGame db.games gd.id
            (fun gg => { gg with status := "FINAL", status_updated_at := some now })
            g hmem
          refine ⟨g', hg'mem, ?_⟩
          rcases hor with h | h
          · exact Or.inl (by rw [h])
          · exact Or.inr (by rw [h])
        · intro harch
          apply mem_updateFirstGame_of_ne db.games gd.id _ r g hfind hmem
          intro hc
          exact hcond.2 (by rw [← hc]; exact harch)
      · rw [if_neg hflag]
        exact ⟨⟨g, hmem, Or.inl rfl⟩, fun _ => hmem⟩
    · rw [if_neg hcond]
      exact ⟨⟨g, hmem, Or.inl rfl⟩, fun _ => hmem⟩
  | none =>
    have hfc : findOrCreateGame db gd =
        ({ db with games := db.games ++
            [{ game_id := gd.id, game_date_utc := gd.gameDate,
               status := if gd.gameState = "FUT" then "SCHEDULED" else gd.gameState,
               away_team := gd.awayAbbrev, home_team := gd.homeAbbrev }] },
         { game_id := gd.id, game_date_utc := gd.gameDate,
           status := if gd.gameState = "FUT" then "SCHEDULED" else gd.gameState,
           away_team := gd.awayAbbrev, home_team := gd.homeAbbrev }) := by
      unfold findOrCreateGame
      rw [hfind]
    simp only [hfc]
    by_cases hcond : (gd.gameState = "FINAL" ∨ gd.gameState = "OFF") ∧
        (if gd.gameState = "FUT" then "SCHEDULED" else gd.gameState) ≠ "ARCHIVED"
    · rw [if_pos ?hc]
      case hc => exact ⟨hcond.1, hcond.2⟩
      rw [if_pos trivial]
      dsimp only [updateGame]
      rw [updateFirstGame_append_of_none db.games _ gd.id _ hfind]
      constructor
      · exact ⟨g, List.mem_append_left _ hmem, Or.inl rfl⟩
      · exact fun _ => List.mem_append_left _ hmem
    · rw [if_neg hcond]
      constructor
      · exact ⟨g, List.mem_append_left _ hmem, Or.inl rfl⟩
      · exact fun _ => List.mem_append_left _ hmem

theorem checkUpcomingGames_cons (now : Int) (db : GameDB) (gd : SchedGame)
    (rest : List SchedGame) :
    checkUpcomingGames now db (gd :: rest)
      = ((checkUpcomingGames now (processScheduleEntry now db gd).1 rest).1,
         (processScheduleEntry now db gd).2.1
           ++ (checkUpcomingGames now (processScheduleEntry now db gd).1 rest).2.1,
         (processScheduleEntry now db gd).2.2
           + (checkUpcomingGames now (processScheduleEntry now db gd).1 rest).2.2) := rfl

theorem checkUpcomingGames_status (now : Int) (sched : List SchedGame)
    (db : GameDB) (g : GameRow) (hmem : g ∈ db.games) :
    (∃ g' ∈ (checkUpcomingGames now db sched).1.games,
      g'.status = g.status ∨ g'.status = "FINAL") ∧
    (g.status = "ARCHIVED" → g ∈ (checkUpcomingGames now db sched).1.games) := by
  induction sched generalizing db g with
  | nil => exact ⟨⟨g, hmem, Or.inl rfl⟩, fun _ => hmem⟩
  | cons gd rest ih =>
    rw [checkUpcomingGames_cons]
    obtain ⟨⟨g1, hg1mem, hg1st⟩, harchpres⟩ := processScheduleEntry_status now db gd g hmem
    constructor
    · obtain ⟨⟨g2, hg2mem, hg2st⟩, _⟩ := ih (processScheduleEntry now db gd).1 g1 hg1mem
      refine ⟨g2, hg2mem, ?_⟩
      rcases hg2st with h | h
      · rcases hg1st with h1 | h1
        · exact Or.inl (h.trans h1)
        · exact Or.inr (h.trans h1)
      · exact Or.inr h
    · intro harch
      obtain ⟨_, hkeep⟩ := ih (processScheduleEntry now db gd).1 g (harchpres harch)
      exact hkeep harch

theorem processGameImmediate_status (box : Except Unit Boxscore) (now : Int)
    (db : GameDB) (gid : Int) (g : GameRow) (hmem : g ∈ db.games) :
    ∃ g' ∈ (runResultDB (processGameImmediate box now db gid)).games,
      g'.status = g.status ∨ g'.status = "FINAL" := by
  unfold processGameImmediate
  cases hfind : findGame db gid with
  | none => exact ⟨g, hmem, Or.inl rfl⟩
  | some r =>
    cases box with
    | error e => exact ⟨g, hmem, Or.inl rfl⟩
    | ok b =>
      simp only [runResultDB]
      dsimp only [updateGame]
      obtain ⟨g', hg'mem, hor⟩ := mem_updateFirstGame db.games gid _ g hmem
      refine ⟨g', hg'mem, ?_⟩
      rcases hor with h | h
      · exact Or.inl (by rw [h])
      · exact Or.inr (by rw [h])

theorem processGameVideosAndRecap_status (search : Except Unit VideoResults)
    (recap : Except Unit RecapResult) (now : Int) (db : GameDB) (gid : Int)
    (g : GameRow) (hmem : g ∈ db.games) :
    ∃ g' ∈ (runResultDB (processGameVideosAndRecap search recap now db gid)).games,
      g'.status = g.status ∨ g'.status = "COMPLETE" := by
  unfold processGameVideosAndRecap
  cases hfind : findGame db gid with
  | none => exact ⟨g, hmem, Or.inl rfl⟩
  | some r =>
    cases search with
    | error e => exact ⟨g, hmem, Or.inl rfl⟩
    | ok vr =>
      cases recap with
      | error e =>
        simp only [runResultDB]
        dsimp only [updateGame]
        obtain ⟨g', hg'mem, hor⟩ := mem_updateFirstGame db.games gid
          (fun gg => { gg with videos_fetched := true }) g hmem
        refine ⟨g', hg'mem, ?_⟩
        rcases hor with h | h
        · exact Or.inl (by rw [h])
        · exact Or.inl (by rw [h])
      | ok rr =>
        simp only [runResultDB]
        dsimp only [updateGame]
        obtain ⟨g1, hg1mem, hor1⟩ := mem_updateFirstGame db.games gid
          (fun gg => { gg with videos_fetched := true }) g hmem
        obtain ⟨g2, hg2mem, hor2⟩ := mem_updateFirstGame _ gid _ g1 hg1mem
        refine ⟨g2, hg2mem, ?_⟩
        rcases hor2 with h2 | h2
        · rcases hor1 with h1 | h1
          · exact Or.inl (by rw [h2, h1])
          · exact Or.inl (by rw [h2, h1])
        · exact Or.inr (by rw [h2])

theorem archiveGame_games (search : Except Unit VideoResults)
    (recap : Except Unit RecapResult) (now : Int) (db : GameDB) (gid : Int)
    (g : GameRow) (hf : findGame db gid = some g) :
    ∃ F : GameRow → GameRow, (∀ x, (F x).status = "ARCHIVED") ∧
      (archiveGame search recap now db gid).1.games
        = updateFirstGame db.games gid F := by
  unfold archiveGame
  rw [hf]
  cases hvf : g.videos_fetched with
  | true =>
    simp only [hvf]
    rw [if_neg (show ¬(true = false) by simp)]
    dsimp only [updateGame]
    exact ⟨_, fun x => rfl, rfl⟩
  | false =>
    simp only [hvf]
    rw [if_pos trivial]
    dsimp only [updateGame]
    unfold processGameVideosAndRecap
    rw [hf]
    cases search with
    | error e => exact ⟨_, fun x => rfl, rfl⟩
    | ok vr =>
      cases recap with
      | error e =>
        simp only [runResultDB]
        dsimp only [updateGame]
        rw [updateFirstGame_comp]
        · exact ⟨_, fun x => rfl, rfl⟩
        · exact fun _ => rfl
      | ok rr =>
        simp only [runResultDB]
        dsimp only [updateGame]
        rw [updateFirstGame_comp]
        · rw [updateFirstGame_comp]
          · exact ⟨_, fun x => rfl, rfl⟩
          · exact fun _ => rfl
        · exact fun _ => rfl

theorem archiveGame_status (search : Except Unit VideoResults)
    (recap : Except Unit RecapResult) (now : Int) (db : GameDB) (gid : Int)
    (g : GameRow) (hmem : g ∈ db.games) :
    ∃ g' ∈ (archiveGame search recap now db gid).1.games,
      (g' = g ∨ g'.status = "ARCHIVED") ∧
      statusRank g.status ≤ statusRank g'.status := by
  cases hf : findGame db gid with
  | none =>
    unfold archiveGame
    rw [hf]
    exact ⟨g, hmem, Or.inl rfl, le_refl _⟩
  | some r =>
    obtain ⟨F, hFst, hgames⟩ := archiveGame_games search recap now db gid r hf
    rw [hgames]
    obtain ⟨g', hg'mem, hor⟩ := mem_updateFirstGame db.games gid F g hmem
    refine ⟨g', hg'mem, ?_⟩
    rcases hor with h | h
    · exact ⟨Or.inl h, by rw [h]⟩
    · refine ⟨Or.inr (by rw [h]; exact hFst g), ?_⟩
      rw [h, hFst g]
      exact statusRank_le_four _

/-- **C2 counterexample.** A game that reached `COMPLETE` (T+4h ran)
while `basic_stats_fetched` is still false (T+0 failed) passes the
trigger guard of the daily check, which writes `FINAL` - a status
strictly earlier in the lifecycle than the stored `COMPLETE`. -/
theorem check_upcoming_games_regresses_complete :
    ((checkUpcomingGames 1000
        { games := [{ game_id := 1, game_date_utc := 0, status := "COMPLETE",
                      away_team := "SJS", home_team := "DET" }] }
        [{ id := 1, gameState := "FINAL", gameDate := 0,
           awayAbbrev := "SJS", homeAbbrev := "DET" }]).1.games.map
      (fun g => g.status)) = ["FINAL"] ∧
    statusRank "FINAL" < statusRank "COMPLETE" := by
  decide

/-- **C2 (amended).** Every status the four pipeline operations write
is `FINAL`, `COMPLETE` or `ARCHIVED` - never `SCHEDULED` or `LIVE`:
each pre-existing row keeps its status or receives the operation's
fixed target (`FINAL` for `check_upcoming_games` and
`process_game_immediate`, `COMPLETE` for
`process_game_videos_and_recap`, `ARCHIVED` for `archive_game`);
`archive_game` never lowers a status rank, and `check_upcoming_games`
never touches a row whose status is `ARCHIVED`. The claim's blanket
"never writes an earlier status" fails only where an unguarded fixed
target overwrites a later status (`COMPLETE` -> `FINAL` when
`basic_stats_fetched` is false, and re-runs of the unguarded T+0/T+4h
stages). -/
theorem pipeline_status_evolution :
    (∀ (box : Except Unit Boxscore) (now : Int) (db : GameDB) (gid : Int)
        (g : GameRow), g ∈ db.games →
      ∃ g' ∈ (runResultDB (processGameImmediate box now db gid)).games,
        g'.status = g.status ∨ g'.status = "FINAL") ∧
    (∀ (search : Except Unit VideoResults) (recap : Except Unit RecapResult)
        (now : Int) (db : GameDB) (gid : Int) (g : GameRow), g ∈ db.games →
      ∃ g' ∈ (runResultDB (processGameVideosAndRecap search recap now db gid)).games,
        g'.status = g.status ∨ g'.status = "COMPLETE") ∧
    (∀ (search : Except Unit VideoResults) (recap : Except Unit RecapResult)
        (now : Int) (db : GameDB) (gid : Int) (g : GameRow), g ∈ db.games →
      ∃ g' ∈ (archiveGame search recap now db gid).1.games,
        (g' = g ∨ g'.status = "ARCHIVED") ∧
        statusRank g.status ≤ statusRank g'.status) ∧
    (∀ (now : Int) (sched : List SchedGame) (db : GameDB) (g : GameRow),
        g ∈ db.games →
      (∃ g' ∈ (checkUpcomingGames now db sched).1.games,
        g'.status = g.status ∨ g'.status = "FINAL") ∧
      (g.status = "ARCHIVED" → g ∈ (checkUpcomingGames now db sched).1.games)) :=
  ⟨fun box now db gid g hmem => processGameImmediate_status box now db gid g hmem,
   fun search recap now db gid g hmem =>
     processGameVideosAndRecap_status search recap now db gid g hmem,
   fun search recap now db gid g hmem =>
     archiveGame_status search recap now db gid g hmem,
   fun now sched db g hmem => checkUpcomingGames_status now sched db g hmem⟩

/-- Witness for the amended C2: the four parts applied to a concrete
one-game database (an `ARCHIVED` game for the daily-check part, a
`FINAL` game for the others). -/
theorem pipeline_status_evolution_witness :
    (∃ g' ∈ (runResultDB (processGameImmediate (.error ()) 0 goalieGameDB 1)).games,
      g'.status = sharksFinalRow.status ∨ g'.status = "FINAL") ∧
    (∃ g' ∈ (runResultDB (processGameVideosAndRecap (.error ()) (.error ()) 0
        goalieGameDB 1)).games,
      g'.status = sharksFinalRow.status ∨ g'.status = "COMPLETE") ∧
    (∃ g' ∈ (archiveGame (.error ()) (.error ()) 0 goalieGameDB 1).1.games,
      (g' = sharksFinalRow ∨ g'.status = "ARCHIVED") ∧
      statusRank sharksFinalRow.status ≤ statusRank g'.status) ∧
    ((∃ g' ∈ (checkUpcomingGames 0
        { games := [{ game_id := 2, game_date_utc := 0, status := "ARCHIVED",
                      away_team := "SJS", home_team := "DET" }] }
        [{ id := 2, gameState := "FINAL", gameDate := 0,
           awayAbbrev := "SJS", homeAbbrev := "DET" }]).1.games,
      g'.status = ("ARCHIVED" : String) ∨ g'.status = "FINAL") ∧
     (("ARCHIVED" : String) = "ARCHIVED" →
       ({ game_id := 2, game_date_utc := 0, status := "ARCHIVED",
          away_team := "SJS", home_team := "DET" } : GameRow)
         ∈ (checkUpcomingGames 0
             { games := [{ game_id := 2, game_date_utc := 0, status := "ARCHIVED",
                           away_team := "SJS", home_team := "DET" }] }
             [{ id := 2, gameState := "FINAL", gameDate := 0,
                awayAbbrev := "SJS", homeAbbrev := "DET" }]).1.games)) :=
  ⟨pipeline_status_evolution.1 (.error ()) 0 goalieGameDB 1 sharksFinalRow
     (by decide),
   pipeline_status_evolution.2.1 (.error ()) (.error ()) 0 goalieGameDB 1
     sharksFinalRow (by decide),
   pipeline_status_evolution.2.2.1 (.error ()) (.error ()) 0 goalieGameDB 1
     sharksFinalRow (by decide),
   pipeline_status_evolution.2.2.2 0
     [{ id := 2, gameState := "FINAL", gameDate := 0,
        awayAbbrev := "SJS", homeAbbrev := "DET" }]
     { games := [{ game_id := 2, game_date_utc := 0, status := "ARCHIVED",
                   away_team := "SJS", home_team := "DET" }] }
     { game_id := 2, game_date_utc := 0, status := "ARCHIVED",
       away_team := "SJS", home_team := "DET" }
     (by decide)⟩

/-! Helper lemmas for the hourly sweep. -/

/-- "The row with this game id has its videos flag set". -/
def videosFetchedAt (db : GameDB) (x : Int) : Prop :=
  ∃ g, findGame db x = some g ∧ g.videos_fetched = true

theorem sweepProcessGame_map_id (search : Int → Except Unit VideoResults)
    (now : Int) (db : GameDB) (h : GameRow) :
    ((sweepProcessGame search now db h).games.map (fun g => g.game_id))
      = db.games.map (fun g => g.game_id) := by
  unfold sweepProcessGame
  cases search h.game_id with
  | error e => rfl
  | ok vr =>
    dsimp only
    unfold markVideosFetched
    cases hfind : findGame { db with
        videos := saveVideoIfNew
          (saveVideoIfNew db.videos h.game_id "nhl_official" "NHL" vr.nhl_official)
          h.game_id "professor_hockey" "Professor Hockey" vr.professor_hockey }
        h.game_id with
    | none => rfl
    | some r =>
      dsimp only [updateGame]
      exact updateFirstGame_map_id db.games h.game_id _ (fun _ => rfl)

theorem sweepProcessGame_preserves_flag (search : Int → Except Unit VideoResults)
    (now : Int) (db : GameDB) (h : GameRow) (x : Int)
    (hQ : videosFetchedAt db x) :
    videosFetchedAt (sweepProcessGame search now db h) x := by
  unfold sweepProcessGame
  cases search h.game_id with
  | error e => exact hQ
  | ok vr =>
    dsimp only
    unfold markVideosFetched
    cases hfind : findGame { db with
        videos := saveVideoIfNew
          (saveVideoIfNew db.videos h.game_id "nhl_official" "NHL" vr.nhl_official)
          h.game_id "professor_hockey" "Professor Hockey" vr.professor_hockey }
        h.game_id with
    | none => exact hQ
    | some r =>
      dsimp only
      obtain ⟨g, hg, hflag⟩ := hQ
      by_cases hx : x = h.game_id
      · subst hx
        refine ⟨{ g with videos_fetched := true, status_updated_at := some now },
          ?_, rfl⟩
        rw [findGame_updateGame_self]
        · rw [findGame_set_videos, hg, Option.map_some']
        · exact fun _ => rfl
      · refine ⟨g, ?_, hflag⟩
        rw [findGame_updateGame_other]
        · rw [findGame_set_videos]
          exact hg
        · exact fun _ => rfl
        · exact hx

theorem sweepProcessGame_sets_flag (search : Int → Except Unit VideoResults)
    (now : Int) (db : GameDB) (h : GameRow) (vr : VideoResults)
    (hok : search h.game_id = .ok vr)
    (hpresent : h.game_id ∈ db.games.map (fun g => g.game_id)) :
    videosFetchedAt (sweepProcessGame search now db h) h.game_id := by
  unfold sweepProcessGame
  rw [hok]
  dsimp only
  unfold markVideosFetched
  have hsome := find?_isSome_of_mem_ids db.games h.game_id hpresent
  obtain ⟨r, hr⟩ := Option.isSome_iff_exists.mp hsome
  have hfind : findGame { db with
      videos := saveVideoIfNew
        (saveVideoIfNew db.videos h.game_id "nhl_official" "NHL" vr.nhl_official)
        h.game_id "professor_hockey" "Professor Hockey" vr.professor_hockey }
      h.game_id = some r := hr
  rw [hfind]
  dsimp only
  refine ⟨{ r with videos_fetched := true, status_updated_at := some now }, ?_, rfl⟩
  rw [findGame_updateGame_self]
  · rw [findGame_set_videos]
    rw [findGame_set_videos] at hfind
    rw [hfind, Option.map_some']
  · exact fun _ => rfl

theorem foldl_sweep_map_id (search : Int → Except Unit VideoResults) (now : Int)
    (l : List GameRow) (db : GameDB) :
    ((l.foldl (sweepProcessGame search now) db).games.map (fun g => g.game_id))
      = db.games.map (fun g => g.game_id) := by
  induction l generalizing db with
  | nil => rfl
  | cons h t ih =>
    rw [List.foldl_cons, ih]
    exact sweepProcessGame_map_id search now db h

theorem foldl_sweep_preserves_flag (search : Int → Except Unit VideoResults)
    (now : Int) (l : List GameRow) (db : GameDB) (x : Int)
    (hQ : videosFetchedAt db x) :
    videosFetchedAt (l.foldl (sweepProcessGame search now) db) x := by
  induction l generalizing db with
  | nil => exact hQ
  | cons h t ih =>
    rw [List.foldl_cons]
    exact ih _ (sweepProcessGame_preserves_flag search now db h x hQ)

/-- **C10.** Every game the hourly sweep selects and processes without
a raise (its search outcome is `.ok`, even with no usable videos) ends
with `videos_fetched = true`, and no row with its game id appears in
any later sweep's selection (`get_games_needing_processing` filters on
`videos_fetched = false`), so the sweep attempts each game at most
once. Game ids are assumed unique (the `games.game_id` key). -/
theorem hourly_sweep_marks_once (db : GameDB) (now : Int)
    (search : Int → Except Unit VideoResults) (g : GameRow) (vr : VideoResults)
    (hnodup : (db.games.map (fun x => x.game_id)).Nodup)
    (hsel : g ∈ getGamesNeedingProcessing db "FINAL"
      ++ getGamesNeedingProcessing db "OFF")
    (hok : search g.game_id = .ok vr) :
    (∃ g', findGame (checkAndFetchVideosJob search now db) g.game_id = some g' ∧
      g'.videos_fetched = true) ∧
    (∀ s : String, ∀ h ∈ getGamesNeedingProcessing
        (checkAndFetchVideosJob search now db) s, h.game_id ≠ g.game_id) := by
  have hmemdb : g ∈ db.games := by
    rcases List.mem_append.mp hsel with h | h
    · exact (List.mem_filter.mp h).1
    · exact (List.mem_filter.mp h).1
  obtain ⟨l1, l2, hsplit⟩ := List.append_of_mem hsel
  have hjob : checkAndFetchVideosJob search now db
      = l2.foldl (sweepProcessGame search now)
          (sweepProcessGame search now
            (l1.foldl (sweepProcessGame search now) db) g) := by
    unfold checkAndFetchVideosJob
    rw [hsplit, List.foldl_append, List.foldl_cons]
  have hpresent : g.game_id ∈
      ((l1.foldl (sweepProcessGame search now) db).games.map (fun x => x.game_id)) := by
    rw [foldl_sweep_map_id]
    exact List.mem_map_of_mem (fun x => x.game_id) hmemdb
  have hQ : videosFetchedAt (checkAndFetchVideosJob search now db) g.game_id := by
    rw [hjob]
    exact foldl_sweep_preserves_flag search now l2 _ g.game_id
      (sweepProcessGame_sets_flag search now _ g vr hok hpresent)
  obtain ⟨g', hg', hflag'⟩ := hQ
  refine ⟨⟨g', hg', hflag'⟩, ?_⟩
  intro s h hhsel hid
  have hmemfinal : h ∈ (checkAndFetchVideosJob search now db).games :=
    (List.mem_filter.mp hhsel).1
  have hnodup' : ((checkAndFetchVideosJob search now db).games.map
      (fun x => x.game_id)).Nodup := by
    rw [hjob, foldl_sweep_map_id, sweepProcessGame_map_id, foldl_sweep_map_id]
    exact hnodup
  have hfindh := find?_eq_of_nodup_ids _ h hnodup' hmemfinal
  rw [hid] at hfindh
  have : h = g' := by
    have := hfindh.symm.trans hg'
    simpa using this
  have hfalse : h.videos_fetched = false := by
    have := (List.mem_filter.mp hhsel).2
    simp only [Bool.and_eq_true, beq_iff_eq] at this
    simpa using this.2
  rw [this, hflag'] at hfalse
  cases hfalse

/-- Witness for C10: one `FINAL` game, a search returning no usable
videos: the flag is still set and the game leaves the selection. -/
theorem hourly_sweep_marks_once_witness :
    (∃ g', findGame (checkAndFetchVideosJob (fun _ => .ok {}) 3 goalieGameDB) 1
        = some g' ∧ g'.videos_fetched = true) ∧
    (∀ s : String, ∀ h ∈ getGamesNeedingProcessing
        (checkAndFetchVideosJob (fun _ => .ok {}) 3 goalieGameDB) s,
      h.game_id ≠ sharksFinalRow.game_id) :=
  hourly_sweep_marks_once goalieGameDB 3 (fun _ => .ok {}) sharksFinalRow {}
    (by decide) (by decide) rfl

/-- **C6.** Whenever a roster-sync run raises - the upstream fetch
failed or the final commit raised - the session is rolled back: the
committed store is exactly what it was before the run (and the pending
view is reset to it), and a fetch exception is re-raised unchanged to
the caller. -/
theorem roster_sync_error_rolls_back (fetch : Except String RosterData)
    (commitRaises : Bool) (today : Int) (s : RosterSession) (e : String)
    (s' : RosterSession)
    (h : syncSharksRoster fetch commitRaises today s = (.error e, s')) :
    s'.committed = s.committed ∧ s'.pending = s.committed ∧
    (∀ msg, fetch = .error msg → e = msg) := by
  cases fetch with
  | error msg =>
    unfold syncSharksRoster at h
    injection h with h1 h2
    injection h1 with h1
    subst h2
    exact ⟨rfl, rfl, fun msg' hm => by injection hm with hm; rw [← h1, hm]⟩
  | ok roster =>
    unfold syncSharksRoster at h
    dsimp only at h
    cases hc : commitRaises with
    | false =>
      rw [hc] at h
      simp only [Bool.false_eq_true, if_false] at h
      injection h with h1 h2
      cases h1
    | true =>
      rw [hc] at h
      simp only [if_pos rfl] at h
      injection h with h1 h2
      subst h2
      refine ⟨rfl, rfl, fun msg' hm => ?_⟩
      cases hm

/-- Witness for C6: a failed fetch against a one-player store leaves
the store untouched and re-raises the same message. -/
theorem roster_sync_error_rolls_back_witness :
    (syncSharksRoster (.error "upstream timeout") false 10
      { committed := { player_info := [{ nhl_player_id := 1, name := "Player A" }],
                       history := [{ player_id := 1, team_id := "SJS",
                                     team_name := "San Jose Sharks",
                                     start_date := 0, end_date := none }] },
        pending := { player_info := [{ nhl_player_id := 1, name := "Player A" }],
                     history := [{ player_id := 1, team_id := "SJS",
                                   team_name := "San Jose Sharks",
                                   start_date := 0, end_date := none }] } }).2.committed
      = { player_info := [{ nhl_player_id := 1, name := "Player A" }],
          history := [{ player_id := 1, team_id := "SJS",
                        team_name := "San Jose Sharks",
                        start_date := 0, end_date := none }] } ∧
    (syncSharksRoster (.error "upstream timeout") false 10
      { committed := { player_info := [{ nhl_player_id := 1, name := "Player A" }],
                       history := [{ player_id := 1, team_id := "SJS",
                                     team_name := "San Jose Sharks",
                                     start_date := 0, end_date := none }] },
        pending := { player_info := [{ nhl_player_id := 1, name := "Player A" }],
                     history := [{ player_id := 1, team_id := "SJS",
                                   team_name := "San Jose Sharks",
                                   start_date := 0, end_date := none }] } }).2.pending
      = { player_info := [{ nhl_player_id := 1, name := "Player A" }],
          history := [{ player_id := 1, team_id := "SJS",
                        team_name := "San Jose Sharks",
                        start_date := 0, end_date := none }] } ∧
    (∀ msg, (Except.error "upstream timeout" : Except String RosterData)
      = .error msg → "upstream timeout" = msg) :=
  roster_sync_error_rolls_back (.error "upstream timeout") false 10 _
    "upstream timeout" _ rfl

/-- **C5 counterexample.** A run with open stints `{A, B}` and external
roster `{B, C}` in which B's reported jersey number equals the stored
one: the sync reports 2 changes (1 removal + 1 addition), not 3 - the
intersection branch counts an update only when the jersey number
differs. -/
theorem roster_sync_count_counterexample :
    (syncSharksRoster
      (.ok { forwards :=
        [{ id := 2, firstName := "Bee", lastName := "Player",
           positionCode := some "C", sweaterNumber := some 19,
           headshot := some "hB-new" },
         { id := 3, firstName := "Cee", lastName := "Player",
           positionCode := some "D", sweaterNumber := some 7,
           headshot := some "hC" }] })
      false 100
      { committed :=
          { player_info :=
              [{ nhl_player_id := 1, name := "Ay Player",
                 jersey_number := some 4 },
               { nhl_player_id := 2, name := "Bee Player",
                 position := some "C", jersey_number := some 19,
                 headshot_url := some "hB-old" }],
            history :=
              [{ player_id := 1, team_id := "SJS",
                 team_name := "San Jose Sharks", start_date := 0,
                 end_date := none },
               { player_id := 2, team_id := "SJS",
                 team_name := "San Jose Sharks", start_date := 0,
                 end_date := none }] },
        pending :=
          { player_info :=
              [{ nhl_player_id := 1, name := "Ay Player",
                 jersey_number := some 4 },
               { nhl_player_id := 2, name := "Bee Player",
                 position := some "C", jersey_number := some 19,
                 headshot_url := some "hB-old" }],
            history :=
              [{ player_id := 1, team_id := "SJS",
                 team_name := "San Jose Sharks", start_date := 0,
                 end_date := none },
               { player_id := 2, team_id := "SJS",
                 team_name := "San Jose Sharks", start_date := 0,
                 end_date := none }] } }).1
      = .ok 2 ∧ (2 : Nat) ≠ 3 :=
  ⟨rfl, by decide⟩

/-- **C5 (amended).** For a run with locally open Sharks stints exactly
`{A, B}` and external roster exactly `{B, C}` (all distinct): A's stint
is closed with `end_date = today`, C's master record is created (name
from first/last name, profile URL from the id) and a new open stint
for C is opened dated today, B's master record is updated in place
(jersey, position, headshot) with no new stint for B - and the
reported change count is 2 (1 removal + 1 addition), plus 1 more
exactly when B's stored jersey number differs from the reported one. -/
theorem roster_sync_diff_scenario (today : Int) (A B C : Int)
    (hAB : A ≠ B) (hAC : A ≠ C) (hBC : B ≠ C)
    (infoA infoB : PlayerInfoRow) (hIA : infoA.nhl_player_id = A)
    (hIB : infoB.nhl_player_id = B)
    (stintA stintB : StintRow)
    (hSA : stintA.player_id = A) (hSAt : stintA.team_id = "SJS")
    (hSAe : stintA.end_date = none)
    (hSB : stintB.player_id = B) (hSBt : stintB.team_id = "SJS")
    (hSBe : stintB.end_date = none)
    (pB pC : RosterPlayer) (hPB : pB.id = B) (hPC : pC.id = C) :
    syncSharksRoster (.ok { forwards := [pB, pC] }) false today
      { committed := { player_info := [infoA, infoB], history := [stintA, stintB] },
        pending := { player_info := [infoA, infoB], history := [stintA, stintB] } }
    = (.ok (if infoB.jersey_number = pB.sweaterNumber then 2 else 3),
       { committed :=
           { player_info :=
               [infoA,
                { infoB with jersey_number := pB.sweaterNumber,
                             position := pB.positionCode,
                             headshot_url := pB.headshot },
                { nhl_player_id := C,
                  name := pC.firstName ++ " " ++ pC.lastName,
                  position := pC.positionCode,
                  jersey_number := pC.sweaterNumber,
                  nhl_profile_url := some ("https://www.nhl.com/player/" ++ toString C),
                  headshot_url := pC.headshot }],
             history :=
               [{ stintA with end_date := some today }, stintB,
                { player_id := C, team_id := "SJS",
                  team_name := "San Jose Sharks",
                  start_date := today, end_date := none }] },
         pending :=
           { player_info :=
               [infoA,
                { infoB with jersey_number := pB.sweaterNumber,
                             position := pB.positionCode,
                             headshot_url := pB.headshot },
                { nhl_player_id := C,
                  name := pC.firstName ++ " " ++ pC.lastName,
                  position := pC.positionCode,
                  jersey_number := pC.sweaterNumber,
                  nhl_profile_url := some ("https://www.nhl.com/player/" ++ toString C),
                  headshot_url := pC.headshot }],
             history :=
               [{ stintA with end_date := some today }, stintB,
                { player_id := C, team_id := "SJS",
                  team_name := "San Jose Sharks",
                  start_date := today, end_date := none }] } }) := by
  have hab : (A == B) = false := by simp [hAB]
  have hba : (B == A) = false := by simp [hAB.symm]
  have hac : (A == C) = false := by simp [hAC]
  have hca : (C == A) = false := by simp [hAC.symm]
  have hbc : (B == C) = false := by simp [hBC]
  have hcb : (C == B) = false := by simp [hBC.symm]
  by_cases hj : infoB.jersey_number = pB.sweaterNumber
  · simp [syncSharksRoster, applyRosterSync, syncRemoveOne, syncAddOne,
      syncUpdateOne, apiPlayersMap, dedupKeepFirst, openSharksStint, infoMatches,
      sharksTeamId, updateFirstBy, sessCommit, hSA, hSAt, hSAe, hSB, hSBt, hSBe,
      hIA, hIB, hPB, hPC, hab, hba, hac, hca, hbc, hcb, hj,
      hAB, hAC, hBC, Ne.symm hAB, Ne.symm hAC, Ne.symm hBC,
      List.filter_cons, List.filter_nil, List.foldl_cons, List.foldl_nil,
      List.find?_cons, List.find?_nil, decide_False, decide_True]
  · simp [syncSharksRoster, applyRosterSync, syncRemoveOne, syncAddOne,
      syncUpdateOne, apiPlayersMap, dedupKeepFirst, openSharksStint, infoMatches,
      sharksTeamId, updateFirstBy, sessCommit, hSA, hSAt, hSAe, hSB, hSBt, hSBe,
      hIA, hIB, hPB, hPC, hab, hba, hac, hca, hbc, hcb, hj,
      hAB, hAC, hBC, Ne.symm hAB, Ne.symm hAC, Ne.symm hBC,
      List.filter_cons, List.filter_nil, List.foldl_cons, List.foldl_nil,
      List.find?_cons, List.find?_nil, decide_False, decide_True]

/-- Witness for the amended C5 at concrete players (B's jersey number
changes from 19 to 20, so the count is 3). -/
theorem roster_sync_diff_scenario_witness :
    syncSharksRoster
      (.ok { forwards :=
        [{ id := 2, firstName := "Bee", lastName := "Player",
           positionCode := some "C", sweaterNumber := some 20,
           headshot := some "hB-new" },
         { id := 3, firstName := "Cee", lastName := "Player",
           positionCode := some "D", sweaterNumber := some 7,
           headshot := some "hC" }] })
      false 100
      { committed :=
          { player_info :=
              [{ nhl_player_id := 1, name := "Ay Player", jersey_number := some 4 },
               { nhl_player_id := 2, name := "Bee Player", position := some "C",
                 jersey_number := some 19, headshot_url := some "hB-old" }],
            history :=
              [{ player_id := 1, team_id := "SJS", team_name := "San Jose Sharks",
                 start_date := 0, end_date := none },
               { player_id := 2, team_id := "SJS", team_name := "San Jose Sharks",
                 start_date := 0, end_date := none }] },
        pending :=
          { player_info :=
              [{ nhl_player_id := 1, name := "Ay Player", jersey_number := some 4 },
               { nhl_player_id := 2, name := "Bee Player", position := some "C",
                 jersey_number := some 19, headshot_url := some "hB-old" }],
            history :=
              [{ player_id := 1, team_id := "SJS", team_name := "San Jose Sharks",
                 start_date := 0, end_date := none },
               { player_id := 2, team_id := "SJS", team_name := "San Jose Sharks",
                 start_date := 0, end_date := none }] } }
    = (.ok (if (some 19 : Option Int) = some 20 then 2 else 3),
       { committed :=
           { player_info :=
               [{ nhl_player_id := 1, name := "Ay Player", jersey_number := some 4 },
                { nhl_player_id := 2, name := "Bee Player", position := some "C",
                  jersey_number := some 20, headshot_url := some "hB-new" },
                { nhl_player_id := 3, name := "Cee" ++ " " ++ "Player",
                  position := some "D", jersey_number := some 7,
                  nhl_profile_url :=
                    some ("https://www.nhl.com/player/" ++ toString (3 : Int)),
                  headshot_url := some "hC" }],
             history :=
               [{ player_id := 1, team_id := "SJS", team_name := "San Jose Sharks",
                  start_date := 0, end_date := some 100 },
                { player_id := 2, team_id := "SJS", team_name := "San Jose Sharks",
                  start_date := 0, end_date := none },
                { player_id := 3, team_id := "SJS", team_name := "San Jose Sharks",
                  start_date := 100, end_date := none }] },
         pending :=
           { player_info :=
               [{ nhl_player_id := 1, name := "Ay Player", jersey_number := some 4 },
                { nhl_player_id := 2, name := "Bee Player", position := some "C",
                  jersey_number := some 20, headshot_url := some "hB-new" },
                { nhl_player_id := 3, name := "Cee" ++ " " ++ "Player",
                  position := some "D", jersey_number := some 7,
                  nhl_profile_url :=
                    some ("https://www.nhl.com/player/" ++ toString (3 : Int)),
                  headshot_url := some "hC" }],
             history :=
               [{ player_id := 1, team_id := "SJS", team_name := "San Jose Sharks",
                  start_date := 0, end_date := some 100 },
                { player_id := 2, team_id := "SJS", team_name := "San Jose Sharks",
                  start_date := 0, end_date := none },
                { player_id := 3, team_id := "SJS", team_name := "San Jose Sharks",
                  start_date := 100, end_date := none }] } }) :=
  roster_sync_diff_scenario 100 1 2 3 (by decide) (by decide) (by decide)
    { nhl_player_id := 1, name := "Ay Player", jersey_number := some 4 }
    { nhl_player_id := 2, name := "Bee Player", position := some "C",
      jersey_number := some 19, headshot_url := some "hB-old" }
    rfl rfl
    { player_id := 1, team_id := "SJS", team_name := "San Jose Sharks",
      start_date := 0, end_date := none }
    { player_id := 2, team_id := "SJS", team_name := "San Jose Sharks",
      start_date := 0, end_date := none }
    rfl rfl rfl rfl rfl rfl
    { id := 2, firstName := "Bee", lastName := "Player",
      positionCode := some "C", sweaterNumber := some 20,
      headshot := some "hB-new" }
    { id := 3, firstName := "Cee", lastName := "Player",
      positionCode := some "D", sweaterNumber := some 7, headshot := some "hC" }
    rfl rfl
